import Mathlib

/-!
Verification of the Darty dart-scoring engine.

Shallow embedding of the game-rules core of the repository:
- `client/src/lib/dartboard.ts` — segments and board geometry,
- `client/src/lib/ai-strategy.ts` — checkout-table construction and X01 targeting,
- `client/src/pages/X01Game.tsx` — the X01 turn engine (dart application, bust,
  end-of-turn statistics, undo),
- `client/src/pages/CricketGame.tsx` — the Cricket turn engine (marks, points, win).

JavaScript numbers that stay integral are modelled as `Nat`/`Int`; the floating
point statistics averages are modelled as exact rationals; the `Record<number, _>`
checkout table is modelled as a 171-slot positional list (every write in the
source targets a key `≤ 170`, which the development proves where it matters).
-/

namespace Darty

/-- A dartboard segment (`dartboard.ts`, type `DartSegment`). -/
structure DartSegment where
  number : Nat
  multiplier : Nat
  label : String
  score : Nat
deriving DecidableEq

/-- `dartboard.ts`: `MISS`. -/
def MISS : DartSegment := ⟨0, 1, "MISS", 0⟩

/-- `dartboard.ts`: `SINGLE_BULL` (outer bull, 25). -/
def SINGLE_BULL : DartSegment := ⟨25, 1, "25", 25⟩

/-- `dartboard.ts`: `DOUBLE_BULL` (inner bull, 50). -/
def DOUBLE_BULL : DartSegment := ⟨25, 2, "BULL", 50⟩

/-- The label letter used by `createSegment` and `getSegmentAtPoint`. -/
def multTag (multiplier : Nat) : String :=
  if multiplier = 3 then "T" else if multiplier = 2 then "D" else "S"

/-- `dartboard.ts`: `createSegment`. -/
def createSegment (number multiplier : Nat) : DartSegment :=
  if number = 25 then (if multiplier = 2 then DOUBLE_BULL else SINGLE_BULL)
  else if number = 0 then MISS
  else ⟨number, multiplier, multTag multiplier ++ toString number, number * multiplier⟩

/-! ## The checkout table (`ai-strategy.ts`, `buildCheckoutTable`)

A checkout is the ordered list of `(number, multiplier)` pairs stored in
`CHECKOUT_TABLE`.  The JavaScript `Record<number, ...>` only ever receives keys
between 2 and 170, so it is modelled as a positional list with 171 slots
(index = remaining score); a slot holds `none` exactly when the record has no
entry for that key. -/

abbrev Checkout := List (Nat × Nat)

abbrev CheckoutTable := List (Option Checkout)

/-- Read slot `k` (JS `CHECKOUT_TABLE[k]`; `none` = `undefined`). -/
def tableGet : CheckoutTable → Nat → Option Checkout
  | [], _ => none
  | e :: _, 0 => e
  | _ :: t, k + 1 => tableGet t k

/-- Unconditional write (JS `CHECKOUT_TABLE[k] = v`). -/
def tableSet : CheckoutTable → Nat → Checkout → CheckoutTable
  | [], _, _ => []
  | _ :: t, 0, v => some v :: t
  | e :: t, k + 1, v => e :: tableSet t k v

/-- Guarded write (JS `if (!CHECKOUT_TABLE[k]) CHECKOUT_TABLE[k] = v`). -/
def tableSetIfAbsent : CheckoutTable → Nat → Checkout → CheckoutTable
  | [], _, _ => []
  | none :: t, 0, v => some v :: t
  | some w :: t, 0, _ => some w :: t
  | e :: t, k + 1, v => e :: tableSetIfAbsent t k v

def emptyTable : CheckoutTable := List.replicate 171 none

/-- The loop range `for (let i = 1; i <= 20; i++)`. -/
def nums : List Nat := List.range' 1 20

/-- The multiplier list `[1, 2, 3]`. -/
def mults : List Nat := [1, 2, 3]

/-- Single-dart finishes: doubles 2..40, then the bullseye 50. -/
def phase1 (t : CheckoutTable) : CheckoutTable :=
  tableSet (nums.foldl (fun t i => tableSet t (i * 2) [(i, 2)]) t) 50 [(25, 2)]

/-- Two-dart finishes: any first dart, then a double or the bull. -/
def phase2 (t : CheckoutTable) : CheckoutTable :=
  nums.foldl (fun t first =>
    mults.foldl (fun t mult =>
      let remaining := first * mult
      let t := nums.foldl (fun t d =>
        let total := remaining + d * 2
        if total ≤ 170 then tableSetIfAbsent t total [(first, mult), (d, 2)] else t) t
      let totalBull := remaining + 50
      if totalBull ≤ 170 then tableSetIfAbsent t totalBull [(first, mult), (25, 2)]
      else t) t) t

/-- Single bull plus a double. -/
def phaseBull (t : CheckoutTable) : CheckoutTable :=
  nums.foldl (fun t d => tableSetIfAbsent t (25 + d * 2) [(25, 1), (d, 2)]) t

/-- Three-dart finishes. -/
def phase3 (t : CheckoutTable) : CheckoutTable :=
  nums.foldl (fun t a =>
    mults.foldl (fun t am =>
      nums.foldl (fun t b =>
        mults.foldl (fun t bm =>
          let t := nums.foldl (fun t d =>
            let total := a * am + b * bm + d * 2
            if total ≤ 170 then tableSetIfAbsent t total [(a, am), (b, bm), (d, 2)]
            else t) t
          let totalBull := a * am + b * bm + 50
          if totalBull ≤ 170 then tableSetIfAbsent t totalBull [(a, am), (b, bm), (25, 2)]
          else t) t) t) t) t

/-- The curated override table (`optimalCheckouts` object literal, source order). -/
def optimalCheckouts : List (Nat × Checkout) := [
  (170, [(20, 3), (20, 3), (25, 2)]),
  (167, [(20, 3), (19, 3), (25, 2)]),
  (164, [(20, 3), (18, 3), (25, 2)]),
  (161, [(20, 3), (17, 3), (25, 2)]),
  (160, [(20, 3), (20, 3), (20, 2)]),
  (158, [(20, 3), (20, 3), (19, 2)]),
  (157, [(20, 3), (19, 3), (20, 2)]),
  (156, [(20, 3), (20, 3), (18, 2)]),
  (155, [(20, 3), (19, 3), (19, 2)]),
  (154, [(20, 3), (18, 3), (20, 2)]),
  (153, [(20, 3), (19, 3), (18, 2)]),
  (152, [(20, 3), (20, 3), (16, 2)]),
  (151, [(20, 3), (17, 3), (20, 2)]),
  (150, [(20, 3), (18, 3), (18, 2)]),
  (149, [(20, 3), (19, 3), (16, 2)]),
  (148, [(20, 3), (16, 3), (20, 2)]),
  (147, [(20, 3), (17, 3), (18, 2)]),
  (146, [(20, 3), (18, 3), (16, 2)]),
  (145, [(20, 3), (15, 3), (20, 2)]),
  (144, [(20, 3), (20, 3), (12, 2)]),
  (143, [(20, 3), (17, 3), (16, 2)]),
  (142, [(20, 3), (14, 3), (20, 2)]),
  (141, [(20, 3), (19, 3), (12, 2)]),
  (140, [(20, 3), (20, 3), (10, 2)]),
  (139, [(20, 3), (13, 3), (20, 2)]),
  (138, [(20, 3), (18, 3), (12, 2)]),
  (137, [(20, 3), (19, 3), (10, 2)]),
  (136, [(20, 3), (20, 3), (8, 2)]),
  (135, [(20, 3), (17, 3), (12, 2)]),
  (134, [(20, 3), (14, 3), (16, 2)]),
  (133, [(20, 3), (19, 3), (8, 2)]),
  (132, [(20, 3), (20, 3), (6, 2)]),
  (131, [(20, 3), (13, 3), (16, 2)]),
  (130, [(20, 3), (18, 3), (8, 2)]),
  (129, [(19, 3), (20, 3), (6, 2)]),
  (128, [(20, 3), (20, 3), (4, 2)]),
  (127, [(20, 3), (17, 3), (8, 2)]),
  (126, [(19, 3), (19, 3), (6, 2)]),
  (125, [(20, 3), (19, 3), (4, 2)]),
  (124, [(20, 3), (16, 3), (8, 2)]),
  (123, [(19, 3), (16, 3), (9, 2)]),
  (122, [(18, 3), (20, 3), (4, 2)]),
  (121, [(20, 3), (11, 3), (14, 2)]),
  (120, [(20, 3), (20, 1), (20, 2)]),
  (119, [(19, 3), (12, 3), (13, 2)]),
  (118, [(20, 3), (18, 1), (20, 2)]),
  (117, [(20, 3), (17, 1), (20, 2)]),
  (116, [(20, 3), (16, 1), (20, 2)]),
  (115, [(20, 3), (15, 1), (20, 2)]),
  (114, [(20, 3), (14, 1), (20, 2)]),
  (113, [(20, 3), (13, 1), (20, 2)]),
  (112, [(20, 3), (12, 1), (20, 2)]),
  (111, [(20, 3), (19, 1), (16, 2)]),
  (110, [(20, 3), (18, 1), (16, 2)]),
  (109, [(20, 3), (17, 1), (16, 2)]),
  (108, [(20, 3), (16, 1), (16, 2)]),
  (107, [(19, 3), (18, 1), (16, 2)]),
  (106, [(20, 3), (14, 1), (16, 2)]),
  (105, [(20, 3), (13, 1), (16, 2)]),
  (104, [(18, 3), (18, 1), (16, 2)]),
  (103, [(20, 3), (11, 1), (16, 2)]),
  (102, [(20, 3), (10, 1), (16, 2)]),
  (101, [(20, 3), (9, 1), (16, 2)]),
  (100, [(20, 3), (20, 2)]),
  (99, [(19, 3), (10, 1), (16, 2)]),
  (98, [(20, 3), (6, 1), (16, 2)]),
  (97, [(19, 3), (8, 1), (16, 2)]),
  (96, [(20, 3), (20, 2)]),
  (95, [(20, 3), (3, 1), (16, 2)]),
  (94, [(18, 3), (8, 1), (16, 2)]),
  (93, [(19, 3), (4, 1), (16, 2)]),
  (92, [(20, 3), (20, 2)]),
  (91, [(17, 3), (20, 2)]),
  (90, [(20, 3), (18, 1), (6, 2)]),
  (89, [(19, 3), (16, 2)]),
  (88, [(16, 3), (20, 2)]),
  (87, [(17, 3), (18, 2)]),
  (86, [(18, 3), (16, 2)]),
  (85, [(15, 3), (20, 2)]),
  (84, [(20, 3), (12, 2)]),
  (83, [(17, 3), (16, 2)]),
  (82, [(14, 3), (20, 2)]),
  (81, [(19, 3), (12, 2)]),
  (80, [(20, 3), (10, 2)]),
  (79, [(13, 3), (20, 2)]),
  (78, [(18, 3), (12, 2)]),
  (77, [(19, 3), (10, 2)]),
  (76, [(20, 3), (8, 2)]),
  (75, [(17, 3), (12, 2)]),
  (74, [(14, 3), (16, 2)]),
  (73, [(19, 3), (8, 2)]),
  (72, [(20, 3), (6, 2)]),
  (71, [(13, 3), (16, 2)]),
  (70, [(18, 3), (8, 2)]),
  (69, [(19, 3), (6, 2)]),
  (68, [(20, 3), (4, 2)]),
  (67, [(17, 3), (8, 2)]),
  (66, [(10, 3), (18, 2)]),
  (65, [(19, 3), (4, 2)]),
  (64, [(16, 3), (8, 2)]),
  (63, [(13, 3), (12, 2)]),
  (62, [(10, 3), (16, 2)]),
  (61, [(15, 3), (8, 2)]),
  (60, [(20, 1), (20, 2)]),
  (59, [(19, 1), (20, 2)]),
  (58, [(18, 1), (20, 2)]),
  (57, [(17, 1), (20, 2)]),
  (56, [(16, 1), (20, 2)]),
  (55, [(15, 1), (20, 2)]),
  (54, [(14, 1), (20, 2)]),
  (53, [(13, 1), (20, 2)]),
  (52, [(12, 1), (20, 2)]),
  (51, [(11, 1), (20, 2)]),
  (50, [(25, 2)]),
  (49, [(9, 1), (20, 2)]),
  (48, [(8, 1), (20, 2)]),
  (47, [(7, 1), (20, 2)]),
  (46, [(6, 1), (20, 2)]),
  (45, [(5, 1), (20, 2)]),
  (44, [(4, 1), (20, 2)]),
  (43, [(3, 1), (20, 2)]),
  (42, [(10, 1), (16, 2)]),
  (41, [(9, 1), (16, 2)])]

/-- `Object.assign(CHECKOUT_TABLE, optimalCheckouts)` — overwriting writes. -/
def applyOverrides (t : CheckoutTable) : CheckoutTable :=
  optimalCheckouts.foldl (fun t p => tableSet t p.1 p.2) t

/-- `buildCheckoutTable()`: the four generative phases, then the overrides. -/
def buildCheckoutTable : CheckoutTable :=
  applyOverrides (phase3 (phaseBull (phase2 (phase1 emptyTable))))

/-- The populated `CHECKOUT_TABLE` (built once at module load). -/
def CHECKOUT_TABLE : CheckoutTable := buildCheckoutTable

/-- Spec-side: the summed score of a checkout sequence ((25,2) is the inner
bull, scoring 50 = 25·2, so `n·m` covers every pair the table stores). -/
def checkoutScoreSum (co : Checkout) : Nat :=
  co.foldl (fun s p => s + p.1 * p.2) 0

/-! ### Positional-table lemmas -/

theorem length_tableSet (t : CheckoutTable) (k : Nat) (v : Checkout) :
    (tableSet t k v).length = t.length := by
  induction t generalizing k with
  | nil => cases k <;> rfl
  | cons e t ih =>
    cases k with
    | zero => rfl
    | succ k => simpa [tableSet] using ih k

theorem length_tableSetIfAbsent (t : CheckoutTable) (k : Nat) (v : Checkout) :
    (tableSetIfAbsent t k v).length = t.length := by
  induction t generalizing k with
  | nil => cases k <;> rfl
  | cons e t ih =>
    cases k with
    | zero => cases e <;> rfl
    | succ k => cases e <;> simpa [tableSetIfAbsent] using ih k

theorem tableGet_none_of_le (t : CheckoutTable) (k : Nat) (h : t.length ≤ k) :
    tableGet t k = none := by
  induction t generalizing k with
  | nil => rfl
  | cons e t ih =>
    cases k with
    | zero => simp at h
    | succ k => exact ih k (by simpa using h)

theorem tableGet_tableSet_self (t : CheckoutTable) (k : Nat) (v : Checkout)
    (hk : k < t.length) : tableGet (tableSet t k v) k = some v := by
  induction t generalizing k with
  | nil => simp at hk
  | cons e t ih =>
    cases k with
    | zero => rfl
    | succ k => exact ih k (by simpa using hk)

theorem tableGet_tableSet_ne (t : CheckoutTable) (k j : Nat) (v : Checkout)
    (h : j ≠ k) : tableGet (tableSet t k v) j = tableGet t j := by
  induction t generalizing k j with
  | nil => cases k <;> rfl
  | cons e t ih =>
    cases k with
    | zero =>
      cases j with
      | zero => exact absurd rfl h
      | succ j => rfl
    | succ k =>
      cases j with
      | zero => rfl
      | succ j => exact ih k j fun hc => h (by rw [hc])

theorem tableGet_tableSetIfAbsent_of_some (t : CheckoutTable) (k j : Nat)
    (v w : Checkout) (h : tableGet t j = some w) :
    tableGet (tableSetIfAbsent t k v) j = some w := by
  induction t generalizing k j with
  | nil => simp [tableGet] at h
  | cons e t ih =>
    cases k with
    | zero =>
      cases j with
      | zero =>
        cases e with
        | none => simp [tableGet] at h
        | some u => exact h
      | succ j => cases e <;> exact h
    | succ k =>
      cases j with
      | zero => simpa [tableSetIfAbsent, tableGet] using h
      | succ j => simpa [tableSetIfAbsent, tableGet] using ih k j h

/-- Preservation of a table property along any `List.foldl` loop. -/
theorem foldl_preserve {α : Type} {f : CheckoutTable → α → CheckoutTable}
    {P : CheckoutTable → Prop} (hf : ∀ t x, P t → P (f t x)) :
    ∀ (l : List α) (t : CheckoutTable), P t → P (l.foldl f t) := by
  intro l
  induction l with
  | nil => exact fun t h => h
  | cons x l ih => exact fun t h => ih _ (hf t x h)

/-- Any property closed under both kinds of writes survives `phase1`. -/
theorem phase1_preserve {P : CheckoutTable → Prop}
    (hset : ∀ t k v, P t → P (tableSet t k v)) (t : CheckoutTable) (h : P t) :
    P (phase1 t) :=
  hset _ _ _ (foldl_preserve (fun t i h => hset t (i * 2) [(i, 2)] h) nums t h)

theorem phase2_preserve {P : CheckoutTable → Prop}
    (hset : ∀ t k v, P t → P (tableSetIfAbsent t k v)) (t : CheckoutTable) (h : P t) :
    P (phase2 t) := by
  refine foldl_preserve (fun t first h => ?_) nums t h
  refine foldl_preserve (fun t mult h => ?_) mults t h
  dsimp only
  have hin : ∀ (t : CheckoutTable), P t →
      P (nums.foldl (fun t d =>
        let total := first * mult + d * 2
        if total ≤ 170 then tableSetIfAbsent t total [(first, mult), (d, 2)] else t) t) := by
    intro t h
    refine foldl_preserve (fun t d h => ?_) nums t h
    dsimp only
    split
    · exact hset _ _ _ h
    · exact h
  split
  · exact hset _ _ _ (hin t h)
  · exact hin t h

theorem phaseBull_preserve {P : CheckoutTable → Prop}
    (hset : ∀ t k v, P t → P (tableSetIfAbsent t k v)) (t : CheckoutTable) (h : P t) :
    P (phaseBull t) :=
  foldl_preserve (fun t d h => hset t (25 + d * 2) [(25, 1), (d, 2)] h) nums t h

theorem phase3_preserve {P : CheckoutTable → Prop}
    (hset : ∀ t k v, P t → P (tableSetIfAbsent t k v)) (t : CheckoutTable) (h : P t) :
    P (phase3 t) := by
  refine foldl_preserve (fun t a h => ?_) nums t h
  refine foldl_preserve (fun t am h => ?_) mults t h
  refine foldl_preserve (fun t b h => ?_) nums t h
  refine foldl_preserve (fun t bm h => ?_) mults t h
  dsimp only
  have hin : ∀ (t : CheckoutTable), P t →
      P (nums.foldl (fun t d =>
        let total := a * am + b * bm + d * 2
        if total ≤ 170 then tableSetIfAbsent t total [(a, am), (b, bm), (d, 2)] else t) t) := by
    intro t h
    refine foldl_preserve (fun t d h => ?_) nums t h
    dsimp only
    split
    · exact hset _ _ _ h
    · exact h
  split
  · exact hset _ _ _ (hin t h)
  · exact hin t h

/-- Length of the table after the four generative phases. -/
theorem length_phases : (phase3 (phaseBull (phase2 (phase1 emptyTable)))).length = 171 := by
  have hset : ∀ (t : CheckoutTable) (k : Nat) (v : Checkout),
      t.length = 171 → (tableSet t k v).length = 171 := fun t k v h => by
    rw [length_tableSet]; exact h
  have hsia : ∀ (t : CheckoutTable) (k : Nat) (v : Checkout),
      t.length = 171 → (tableSetIfAbsent t k v).length = 171 := fun t k v h => by
    rw [length_tableSetIfAbsent]; exact h
  have h0 : emptyTable.length = 171 := List.length_replicate 171 none
  exact phase3_preserve (P := fun t => t.length = 171) hsia _
    (phaseBull_preserve (P := fun t => t.length = 171) hsia _
      (phase2_preserve (P := fun t => t.length = 171) hsia _
        (phase1_preserve (P := fun t => t.length = 171) hset _ h0)))

/-- The value the override loop leaves at key `k`: the last pair of the list
targeting `k`, if any. -/
def lastWrite : List (Nat × Checkout) → Nat → Option Checkout
  | [], _ => none
  | p :: rest, k =>
    match lastWrite rest k with
    | some v => some v
    | none => if p.1 = k then some p.2 else none

theorem tableGet_foldl_tableSet (l : List (Nat × Checkout)) :
    ∀ (t : CheckoutTable) (k : Nat), k < t.length →
    tableGet (l.foldl (fun t p => tableSet t p.1 p.2) t) k =
      (match lastWrite l k with
       | some v => some v
       | none => tableGet t k) := by
  induction l with
  | nil => intro t k _; rfl
  | cons p rest ih =>
    intro t k hk
    have hk2 : k < (tableSet t p.1 p.2).length := by rw [length_tableSet]; exact hk
    have := ih (tableSet t p.1 p.2) k hk2
    simp only [List.foldl_cons]
    rw [this]
    show _ = (match lastWrite (p :: rest) k with
      | some v => some v
      | none => tableGet t k)
    rw [show lastWrite (p :: rest) k = (match lastWrite rest k with
      | some v => some v
      | none => if p.1 = k then some p.2 else none) from rfl]
    cases hlw : lastWrite rest k with
    | some v => simp
    | none =>
      simp only
      by_cases hpk : p.1 = k
      · subst hpk
        rw [if_pos rfl, tableGet_tableSet_self t p.1 p.2 hk]
      · rw [if_neg hpk, tableGet_tableSet_ne t p.1 k p.2 (fun hc => hpk hc.symm)]

/-- A key written (last) by the override table keeps that override value in the
final `CHECKOUT_TABLE`. -/
theorem tableGet_of_override (k : Nat) (v : Checkout) (hk : k < 171)
    (h : lastWrite optimalCheckouts k = some v) :
    tableGet CHECKOUT_TABLE k = some v := by
  show tableGet (applyOverrides (phase3 (phaseBull (phase2 (phase1 emptyTable))))) k = some v
  unfold applyOverrides
  rw [tableGet_foldl_tableSet optimalCheckouts _ k (by rw [length_phases]; exact hk), h]

/-- The final table keeps the curated 170 finish (used as a concrete witness). -/
theorem tableGet_170 : tableGet CHECKOUT_TABLE 170 = some [(20, 3), (20, 3), (25, 2)] :=
  tableGet_of_override 170 _ (by omega) (by decide)

/-- C1: the claim states that every populated entry of the checkout table sums
exactly to its key.  The code violates this: the override table maps both 96 and
92 to `[T20, D20]`, whose summed score is 100.  This theorem evaluates the built
table at those keys and shows the stored sequence sums to 100, not to the key.
(All other parts of the claim — keys in 2..170, length ≤ 3, double finish, the
seven absent keys, and the 170/50/40 entries — are consistent with the code; the
two bad entries are evidently data typos for T20 D18 = 96 and T20 D16 = 92.) -/
theorem c1_checkout_entries_92_and_96_sum_to_100 :
    tableGet CHECKOUT_TABLE 96 = some [(20, 3), (20, 2)] ∧
    tableGet CHECKOUT_TABLE 92 = some [(20, 3), (20, 2)] ∧
    checkoutScoreSum [(20, 3), (20, 2)] = 100 ∧
    ¬(checkoutScoreSum [(20, 3), (20, 2)] = 96) ∧
    ¬(checkoutScoreSum [(20, 3), (20, 2)] = 92) :=
  ⟨tableGet_of_override 96 _ (by omega) (by decide),
   tableGet_of_override 92 _ (by omega) (by decide),
   by decide, by decide, by decide⟩

/-! ## X01 targeting (`ai-strategy.ts`, `getX01Target`) -/

structure X01Target where
  number : Nat
  multiplier : Nat
deriving DecidableEq

/-- The preferred-leave list of step 5. -/
def preferredLeaves : List Int := [32, 40, 36, 24, 16, 20, 28, 50]

/-- One entry of the `possibleTargets` array. -/
structure X01Candidate where
  target : X01Target
  leave : Int
  priority : Nat
deriving DecidableEq

/-- The raw score of a candidate's target (used by the sort comparator). -/
def candScore (c : X01Candidate) : Nat := c.target.number * c.target.multiplier

/-- The multiplier iteration order `[3, 1, 2]` of the candidate loop. -/
def multsPref : List Nat := [3, 1, 2]

/-- The `possibleTargets` list: n from 1..20, m over `[3,1,2]`; keep the
combinations whose leave lies in `[2, 170]` and has a checkout entry; the
priority is the index in `preferredLeaves`, or 100 when not preferred. -/
def candidates (remaining : Nat) : List X01Candidate :=
  nums.flatMap (fun n =>
    multsPref.filterMap (fun m =>
      let score := n * m
      let leave : Int := (remaining : Int) - (score : Int)
      if leave < 2 then none
      else if 170 < leave then none
      else
        let priority := match preferredLeaves.findIdx? (fun x => x == leave) with
          | some idx => idx
          | none => 100
        if (tableGet CHECKOUT_TABLE leave.toNat).isSome then
          some ⟨⟨n, m⟩, leave, priority⟩
        else none))

/-- `a` strictly precedes `b` under the sort comparator: smaller priority index
first, then larger raw score. -/
def candBetter (a b : X01Candidate) : Bool :=
  a.priority < b.priority || (a.priority == b.priority && candScore b < candScore a)

/-- The head of the stably sorted candidate array
(`possibleTargets.sort(cmp)[0]`): the earliest candidate that no other
candidate strictly precedes. -/
def pickBest : List X01Candidate → Option X01Candidate
  | [] => none
  | c :: cs => some (cs.foldl (fun best x => if candBetter x best then x else best) c)

/-- Steps 2-5 of `getX01Target`, reached when the checkout step falls through. -/
def getX01TargetTail (remaining : Nat) : X01Target :=
  if remaining ≤ 40 ∧ remaining % 2 = 1 then ⟨1, 1⟩
  else if remaining ≤ 40 ∧ remaining % 2 = 0 then ⟨remaining / 2, 2⟩
  else if 180 < remaining then ⟨20, 3⟩
  else
    match pickBest (candidates remaining) with
    | some c => c.target
    | none => ⟨20, 3⟩

/-- `getX01Target(remaining, dartsInTurn)`. -/
def getX01Target (remaining dartsInTurn : Nat) : X01Target :=
  match (if remaining ≤ 170 then tableGet CHECKOUT_TABLE remaining else none) with
  | some checkout =>
    if (checkout.length : Int) ≤ 3 - (dartsInTurn : Int) then
      ⟨(checkout.headD (0, 0)).1, (checkout.headD (0, 0)).2⟩
    else getX01TargetTail remaining
  | none => getX01TargetTail remaining

/-! ### Comparator and selection lemmas -/

theorem candBetter_self (a : X01Candidate) : candBetter a a = false := by
  simp [candBetter]

theorem candBetter_chain {y b r : X01Candidate} (h1 : candBetter y b = true)
    (h2 : candBetter y r = false) : candBetter b r = false := by
  simp only [candBetter, Bool.or_eq_true, Bool.and_eq_true, decide_eq_true_eq,
    beq_iff_eq, Bool.or_eq_false_iff, Bool.and_eq_false_iff, decide_eq_false_iff_not,
    beq_eq_false_iff_ne, ne_eq, not_lt] at h1 h2 ⊢
  omega

theorem candBetter_chain2 {y b r : X01Candidate} (h1 : candBetter y b = false)
    (h2 : candBetter b r = false) : candBetter y r = false := by
  simp only [candBetter, Bool.or_eq_true, Bool.and_eq_true, decide_eq_true_eq,
    beq_iff_eq, Bool.or_eq_false_iff, Bool.and_eq_false_iff, decide_eq_false_iff_not,
    beq_eq_false_iff_ne, ne_eq, not_lt] at h1 h2 ⊢
  omega

theorem foldBest_spec (cs : List X01Candidate) :
    ∀ b : X01Candidate,
      (cs.foldl (fun best x => if candBetter x best then x else best) b = b ∨
        cs.foldl (fun best x => if candBetter x best then x else best) b ∈ cs) ∧
      candBetter b (cs.foldl (fun best x => if candBetter x best then x else best) b) = false ∧
      ∀ x ∈ cs,
        candBetter x (cs.foldl (fun best x => if candBetter x best then x else best) b) = false := by
  induction cs with
  | nil => exact fun b => ⟨Or.inl rfl, candBetter_self b, by simp⟩
  | cons y cs ih =>
    intro b
    simp only [List.foldl_cons]
    by_cases hy : candBetter y b = true
    · rw [if_pos hy]
      obtain ⟨hmem, hb', hall⟩ := ih y
      refine ⟨?_, ?_, ?_⟩
      · rcases hmem with h | h
        · exact Or.inr (by simp [h])
        · exact Or.inr (List.mem_cons_of_mem _ h)
      · exact candBetter_chain hy hb'
      · intro x hx
        rcases List.mem_cons.mp hx with rfl | hx
        · exact hb'
        · exact hall x hx
    · rw [if_neg fun hc => hy hc]
      have hyb : candBetter y b = false := by
        cases h : candBetter y b
        · rfl
        · exact absurd h hy
      obtain ⟨hmem, hb', hall⟩ := ih b
      refine ⟨?_, hb', ?_⟩
      · rcases hmem with h | h
        · exact Or.inl h
        · exact Or.inr (List.mem_cons_of_mem _ h)
      · intro x hx
        rcases List.mem_cons.mp hx with rfl | hx
        · exact candBetter_chain2 hyb hb'
        · exact hall x hx

theorem pickBest_spec (l : List X01Candidate) (c : X01Candidate)
    (h : pickBest l = some c) :
    c ∈ l ∧ ∀ x ∈ l, candBetter x c = false := by
  cases l with
  | nil => simp [pickBest] at h
  | cons b cs =>
    have h' : cs.foldl (fun best x => if candBetter x best then x else best) b = c := by
      simpa [pickBest] using h
    obtain ⟨hmem, hb, hall⟩ := foldBest_spec cs b
    rw [h'] at hmem hb hall
    refine ⟨?_, ?_⟩
    · rcases hmem with h'' | h''
      · rw [h'']; exact List.mem_cons_self b cs
      · exact List.mem_cons_of_mem _ h''
    · intro x hx
      rcases List.mem_cons.mp hx with rfl | hx
      · exact hb
      · exact hall x hx

theorem pickBest_isSome {l : List X01Candidate} (h : l ≠ []) :
    ∃ c, pickBest l = some c := by
  cases l with
  | nil => exact absurd rfl h
  | cons b cs => exact ⟨_, rfl⟩

/-! ### Table length facts used by the targeting proofs -/

theorem length_CHECKOUT_TABLE : CHECKOUT_TABLE.length = 171 := by
  show (applyOverrides (phase3 (phaseBull (phase2 (phase1 emptyTable))))).length = 171
  unfold applyOverrides
  exact foldl_preserve (P := fun t => t.length = 171)
    (fun t p h => by
      show (tableSet t p.1 p.2).length = 171
      rw [length_tableSet]; exact h) _ _ length_phases

theorem checkout_some_le {r : Nat} {co : Checkout}
    (h : tableGet CHECKOUT_TABLE r = some co) : r ≤ 170 := by
  by_contra hr
  rw [tableGet_none_of_le _ _ (by rw [length_CHECKOUT_TABLE]; omega)] at h
  cases h

/-- Step 1 does not fire for `remaining`/`dartsInTurn`: there is no checkout
entry short enough for the darts left in the turn. -/
def noQuickCheckout (remaining dartsInTurn : Nat) : Prop :=
  ∀ co : Checkout, tableGet CHECKOUT_TABLE remaining = some co →
    ¬((co.length : Int) ≤ 3 - (dartsInTurn : Int))

theorem getX01Target_eq_tail {remaining dartsInTurn : Nat}
    (h : noQuickCheckout remaining dartsInTurn) :
    getX01Target remaining dartsInTurn = getX01TargetTail remaining := by
  unfold getX01Target
  cases hc : (if remaining ≤ 170 then tableGet CHECKOUT_TABLE remaining else none) with
  | none => rfl
  | some co =>
    have hco : tableGet CHECKOUT_TABLE remaining = some co := by
      by_cases hr : remaining ≤ 170
      · rwa [if_pos hr] at hc
      · rw [if_neg hr] at hc; cases hc
    simp only
    rw [if_neg (h co hco)]

/-- C8: the `getX01Target` priority ladder.  (1) a short-enough checkout entry
determines the target as the first dart of that entry; (2)/(3) otherwise odd and
even scores ≤ 40 aim at S1 and the matching double; (4) scores above 180 aim at
T20 (no entry exists above 170, so step 1 cannot fire); (5) otherwise the result
is the top-ranked member of the candidate list — ranked by preference-list
position, then descending raw score — with T20 as fallback when the list is
empty. -/
theorem c8_getX01Target_priority_ladder (remaining dartsInTurn : Nat) :
    (∀ co : Checkout, tableGet CHECKOUT_TABLE remaining = some co →
      (co.length : Int) ≤ 3 - (dartsInTurn : Int) →
      getX01Target remaining dartsInTurn = ⟨(co.headD (0, 0)).1, (co.headD (0, 0)).2⟩) ∧
    (noQuickCheckout remaining dartsInTurn → remaining ≤ 40 → remaining % 2 = 1 →
      getX01Target remaining dartsInTurn = ⟨1, 1⟩) ∧
    (noQuickCheckout remaining dartsInTurn → remaining ≤ 40 → remaining % 2 = 0 →
      getX01Target remaining dartsInTurn = ⟨remaining / 2, 2⟩) ∧
    (180 < remaining → getX01Target remaining dartsInTurn = ⟨20, 3⟩) ∧
    (noQuickCheckout remaining dartsInTurn → ¬(remaining ≤ 40) → remaining ≤ 180 →
      (candidates remaining = [] → getX01Target remaining dartsInTurn = ⟨20, 3⟩) ∧
      (candidates remaining ≠ [] → ∃ c ∈ candidates remaining,
        getX01Target remaining dartsInTurn = c.target ∧
        ∀ x ∈ candidates remaining, candBetter x c = false)) := by
  refine ⟨?_, ?_, ?_, ?_, ?_⟩
  · intro co hco hlen
    unfold getX01Target
    rw [if_pos (checkout_some_le hco), hco]
    simp only
    rw [if_pos hlen]
  · intro hq h40 hodd
    rw [getX01Target_eq_tail hq]
    unfold getX01TargetTail
    rw [if_pos ⟨h40, hodd⟩]
  · intro hq h40 heven
    rw [getX01Target_eq_tail hq]
    unfold getX01TargetTail
    rw [if_neg (by omega), if_pos ⟨h40, heven⟩]
  · intro h180
    have hq : noQuickCheckout remaining dartsInTurn := by
      intro co hco _
      have := checkout_some_le hco
      omega
    rw [getX01Target_eq_tail hq]
    unfold getX01TargetTail
    rw [if_neg (by omega), if_neg (by omega), if_pos h180]
  · intro hq h40 h180
    rw [getX01Target_eq_tail hq]
    unfold getX01TargetTail
    rw [if_neg (by omega), if_neg (by omega), if_neg (by omega)]
    constructor
    · intro hnil
      rw [hnil]
      rfl
    · intro hne
      obtain ⟨c, hc⟩ := pickBest_isSome hne
      obtain ⟨hmem, hbest⟩ := pickBest_spec _ _ hc
      exact ⟨c, hmem, by rw [hc], hbest⟩

/-- Witness for C8: at `remaining = 170` with no darts thrown, the three-dart
entry `[T20, T20, Bull]` exists and the AI aims at its first dart, T20. -/
theorem c8_getX01Target_priority_ladder_witness :
    tableGet CHECKOUT_TABLE 170 = some [(20, 3), (20, 3), (25, 2)] ∧
    getX01Target 170 0 = ⟨20, 3⟩ := by
  have h := (c8_getX01Target_priority_ladder 170 0).1 [(20, 3), (20, 3), (25, 2)]
    tableGet_170 (by norm_num)
  exact ⟨tableGet_170, h⟩

/-! ## The X01 turn engine (`X01Game.tsx`)

The React component state is modelled as a pure record; `setState` calls become
functional updates, the `setTimeout`-delayed `endTurn` calls are composed
synchronously (the input surface is disabled while they are pending, so no
other dart can intervene), and the source's deep clones are the identity on
pure values.  The floating-point averages are modelled as exact rationals. -/

structure GameConfig where
  doubleIn : Bool
  doubleOut : Bool
  startScore : Int
  p0Computer : Bool
  p1Computer : Bool
deriving DecidableEq

def GameConfig.computerAt (cfg : GameConfig) (i : Fin 2) : Bool :=
  if i = 0 then cfg.p0Computer else cfg.p1Computer

structure X01Stats where
  totalScore : Int
  highestTurn : Int
  averagePerDart : ℚ
  averagePerTurn : ℚ
  checkoutAttempts : Nat
  checkoutHits : Nat
  oneEighties : Nat
  tonPlus : Nat
deriving DecidableEq

structure X01Turn where
  darts : List DartSegment
  totalScore : Int
  isBust : Bool
  remaining : Int
deriving DecidableEq

structure X01PlayerState where
  remaining : Int
  dartsThrown : Nat
  rounds : Nat
  hasStarted : Bool
  turnHistory : List X01Turn
  stats : X01Stats
deriving DecidableEq

/-- `createInitialX01State` (game-types module). -/
def createInitialX01State (startScore : Int) : X01PlayerState :=
  ⟨startScore, 0, 0, false, [], ⟨0, 0, 0, 0, 0, 0, 0, 0⟩⟩

structure GameSnapshot where
  playerStates : X01PlayerState × X01PlayerState
  currentPlayer : Fin 2
  currentTurnDarts : List DartSegment
  turnScore : Int
  isBust : Bool
deriving DecidableEq

structure X01GameState where
  playerStates : X01PlayerState × X01PlayerState
  currentPlayer : Fin 2
  currentTurnDarts : List DartSegment
  turnScore : Int
  isBust : Bool
  isGameOver : Bool
  winner : Option (Fin 2)
  undoHistory : List GameSnapshot
deriving DecidableEq

def getPlayer {α : Type} (ps : α × α) (i : Fin 2) : α := if i = 0 then ps.1 else ps.2

def setPlayer {α : Type} (ps : α × α) (i : Fin 2) (v : α) : α × α :=
  if i = 0 then (v, ps.2) else (ps.1, v)

def otherPlayer (i : Fin 2) : Fin 2 := if i = 0 then 1 else 0

/-- A fresh X01 match. -/
def initialX01Game (cfg : GameConfig) : X01GameState :=
  ⟨(createInitialX01State cfg.startScore, createInitialX01State cfg.startScore),
    0, [], 0, false, false, none, []⟩

/-- The player-state updates of `endTurn` — the mutations the source applies to
its local `state` clone before writing it back into `newStates`. -/
def endTurnPlayer (st : X01PlayerState) (darts : List DartSegment) (score : Int)
    (bust : Bool) (remaining : Int) : X01PlayerState :=
  let turn : X01Turn :=
    ⟨darts, if bust then 0 else score, bust, if bust then st.remaining else remaining⟩
  let st := { st with
    turnHistory := st.turnHistory ++ [turn],
    dartsThrown := st.dartsThrown + darts.length,
    rounds := st.rounds + 1 }
  let st :=
    if bust = false then
      { st with
        remaining := remaining,
        hasStarted := true,
        stats := { st.stats with
          totalScore := st.stats.totalScore + score,
          highestTurn := if st.stats.highestTurn < score then score else st.stats.highestTurn,
          oneEighties := if score = 180 then st.stats.oneEighties + 1 else st.stats.oneEighties,
          tonPlus := if 100 ≤ score then st.stats.tonPlus + 1 else st.stats.tonPlus } }
    else st
  let st := { st with stats := { st.stats with
    averagePerDart :=
      if 0 < st.dartsThrown then (st.stats.totalScore : ℚ) / (st.dartsThrown : ℚ) else 0,
    averagePerTurn :=
      if 0 < st.rounds then (st.stats.totalScore : ℚ) / (st.rounds : ℚ) else 0 } }
  if st.remaining ≤ 170 ∧ bust = false then
    { st with stats := { st.stats with
      checkoutAttempts := st.stats.checkoutAttempts + 1,
      checkoutHits :=
        if remaining = 0 then st.stats.checkoutHits + 1 else st.stats.checkoutHits } }
  else st

/-- `endTurn(darts, score, bust, remaining)` (X01Game.tsx). -/
def endTurn (gs : X01GameState) (darts : List DartSegment) (score : Int)
    (bust : Bool) (remaining : Int) : X01GameState :=
  let st := endTurnPlayer (getPlayer gs.playerStates gs.currentPlayer) darts score bust remaining
  let gs := { gs with playerStates := setPlayer gs.playerStates gs.currentPlayer st }
  if remaining = 0 ∧ bust = false then
    { gs with isGameOver := true, winner := some gs.currentPlayer }
  else
    { gs with
      currentPlayer := otherPlayer gs.currentPlayer
      currentTurnDarts := []
      turnScore := 0
      isBust := false }

/-- The snapshot pushed before each human dart (the handler only runs when
`isBust` is false, and it stores `isBust: false` verbatim, as the source does). -/
def mkSnapshot (gs : X01GameState) : GameSnapshot :=
  ⟨gs.playerStates, gs.currentPlayer, gs.currentTurnDarts, gs.turnScore, false⟩

/-- `handleDartScore(segment)` (X01Game.tsx), with the delayed `endTurn` calls
composed synchronously. -/
def handleDartScore (cfg : GameConfig) (gs : X01GameState) (segment : DartSegment) :
    X01GameState :=
  if gs.isGameOver = true ∨ gs.isBust = true then gs
  else if cfg.computerAt gs.currentPlayer = true then gs
  else
    let gs := { gs with undoHistory := gs.undoHistory ++ [mkSnapshot gs] }
    let st := getPlayer gs.playerStates gs.currentPlayer
    let currentRemaining := st.remaining - gs.turnScore
    let newRemaining := currentRemaining - (segment.score : Int)
    if cfg.doubleIn = true ∧ st.hasStarted = false ∧ ¬(segment.multiplier = 2) then
      let newDarts := gs.currentTurnDarts ++ [MISS]
      let gs := { gs with currentTurnDarts := newDarts }
      if 3 ≤ newDarts.length then endTurn gs newDarts gs.turnScore false currentRemaining
      else gs
    else if cfg.doubleOut = true ∧ newRemaining = 0 ∧ ¬(segment.multiplier = 2) then
      let newDarts := gs.currentTurnDarts ++ [segment]
      let gs := { gs with currentTurnDarts := newDarts, isBust := true }
      endTurn gs newDarts 0 true st.remaining
    else if newRemaining < 0 ∨ (cfg.doubleOut = true ∧ newRemaining = 1) then
      let newDarts := gs.currentTurnDarts ++ [segment]
      let gs := { gs with currentTurnDarts := newDarts, isBust := true }
      endTurn gs newDarts 0 true st.remaining
    else
      let newTurnScore := gs.turnScore + (segment.score : Int)
      let newDarts := gs.currentTurnDarts ++ [segment]
      let gs := { gs with currentTurnDarts := newDarts, turnScore := newTurnScore }
      if newRemaining = 0 then endTurn gs newDarts newTurnScore false 0
      else if 3 ≤ newDarts.length then endTurn gs newDarts newTurnScore false newRemaining
      else gs

/-- `handleUndo` (X01Game.tsx).  The `aiThinking` guard is omitted: this
development models the human input path, where no AI turn is in flight. -/
def handleUndo (gs : X01GameState) : X01GameState :=
  match gs.undoHistory.getLast? with
  | none => gs
  | some prev =>
    ⟨prev.playerStates, prev.currentPlayer, prev.currentTurnDarts, prev.turnScore,
      prev.isBust, false, none, gs.undoHistory.dropLast⟩

def applyDarts (cfg : GameConfig) : X01GameState → List DartSegment → X01GameState
  | gs, [] => gs
  | gs, d :: ds => applyDarts cfg (handleDartScore cfg gs d) ds

def undoTimes : Nat → X01GameState → X01GameState
  | 0, gs => gs
  | n + 1, gs => handleUndo (undoTimes n gs)

/-- The guards of `handleDartScore` pass: the dart is actually applied. -/
def effectiveDart (cfg : GameConfig) (gs : X01GameState) : Prop :=
  gs.isGameOver = false ∧ gs.isBust = false ∧ cfg.computerAt gs.currentPlayer = false

/-- Every dart of the sequence is actually applied at its turn. -/
def allEffective (cfg : GameConfig) : X01GameState → List DartSegment → Prop
  | _, [] => True
  | gs, d :: ds => effectiveDart cfg gs ∧ allEffective cfg (handleDartScore cfg gs d) ds

/-- C4: the claim infers from the double-in rule that a player counts as
started only once they have hit a double, so a player's remaining should stay
at the start score under any sequence of non-double darts.  The code instead
sets `hasStarted = true` at the end of every non-bust turn, even a turn of
three dead darts, after which non-double darts score.  Evaluation: with
double-in enabled, nine single-20 darts (three dead per player in round one,
then three scoring darts by player 0) leave player 0 at 441, not 501 — even
though no dart had multiplier 2.  (The per-dart behavior the claim also states
— a non-double dart by a not-yet-started player scores 0 and is recorded —
does hold; the started-flag handling is the slip.) -/
theorem c4_double_in_started_flag_set_by_dead_turn :
    (∀ d ∈ [createSegment 20 1, createSegment 20 1, createSegment 20 1,
      createSegment 20 1, createSegment 20 1, createSegment 20 1,
      createSegment 20 1, createSegment 20 1, createSegment 20 1], ¬(d.multiplier = 2)) ∧
    (getPlayer (initialX01Game ⟨true, true, 501, false, false⟩).playerStates 0).remaining
      = 501 ∧
    (getPlayer (applyDarts ⟨true, true, 501, false, false⟩
      (initialX01Game ⟨true, true, 501, false, false⟩)
      [createSegment 20 1, createSegment 20 1, createSegment 20 1,
       createSegment 20 1, createSegment 20 1, createSegment 20 1,
       createSegment 20 1, createSegment 20 1, createSegment 20 1]).playerStates 0).remaining
      = 441 :=
  ⟨by decide, by decide, by decide⟩

/-- Counterexample for C5 as stated: player 0 starts the turn at 171 (> 170)
and throws three single 1s; the turn completes without a bust at 168, and the
code records a checkout attempt (its condition uses the post-turn remaining,
168 ≤ 170), where the claim — "an attempt is recorded exactly when the
remaining at the start of the turn was ≤ 170" — predicts none. -/
theorem c5_counterexample_attempt_recorded_from_171 :
    (getPlayer (initialX01Game ⟨false, true, 171, false, false⟩).playerStates 0).remaining
        = 171 ∧
    (getPlayer (applyDarts ⟨false, true, 171, false, false⟩
        (initialX01Game ⟨false, true, 171, false, false⟩)
        [createSegment 1 1, createSegment 1 1, createSegment 1 1]).playerStates
          0).stats.checkoutAttempts = 1 ∧
    (getPlayer (applyDarts ⟨false, true, 171, false, false⟩
        (initialX01Game ⟨false, true, 171, false, false⟩)
        [createSegment 1 1, createSegment 1 1, createSegment 1 1]).playerStates
          0).turnHistory.map X01Turn.isBust = [false] :=
  ⟨by decide, by decide, by decide⟩

theorem getPlayer_setPlayer {α : Type} (ps : α × α) (i : Fin 2) (v : α) :
    getPlayer (setPlayer ps i v) i = v := by
  by_cases h : i = 0 <;> simp [getPlayer, setPlayer, h]

theorem getPlayer_setPlayer_ne {α : Type} (ps : α × α) (i j : Fin 2) (v : α)
    (h : j ≠ i) : getPlayer (setPlayer ps i v) j = getPlayer ps j := by
  fin_cases i <;> fin_cases j <;> simp_all [getPlayer, setPlayer]

/-- Closed form of `endTurnPlayer` on a busted turn. -/
theorem endTurnPlayer_bust (st : X01PlayerState) (darts : List DartSegment)
    (score remaining : Int) :
    endTurnPlayer st darts score true remaining =
      { st with
        turnHistory := st.turnHistory ++ [⟨darts, 0, true, st.remaining⟩]
        dartsThrown := st.dartsThrown + darts.length
        rounds := st.rounds + 1
        stats := { st.stats with
          averagePerDart := if 0 < st.dartsThrown + darts.length
            then (st.stats.totalScore : ℚ) / ((st.dartsThrown + darts.length : Nat) : ℚ)
            else 0
          averagePerTurn := if 0 < st.rounds + 1
            then (st.stats.totalScore : ℚ) / ((st.rounds + 1 : Nat) : ℚ)
            else 0 } } := by
  unfold endTurnPlayer
  dsimp only
  rw [if_neg (fun h => absurd h.2 (by decide))]
  rfl

/-- Closed form of `endTurnPlayer` on a completed (non-bust) turn. -/
theorem endTurnPlayer_clear (st : X01PlayerState) (darts : List DartSegment)
    (score remaining : Int) :
    endTurnPlayer st darts score false remaining =
      { st with
        remaining := remaining
        hasStarted := true
        turnHistory := st.turnHistory ++ [⟨darts, score, false, remaining⟩]
        dartsThrown := st.dartsThrown + darts.length
        rounds := st.rounds + 1
        stats := { st.stats with
          totalScore := st.stats.totalScore + score
          highestTurn := if st.stats.highestTurn < score then score else st.stats.highestTurn
          oneEighties := if score = 180 then st.stats.oneEighties + 1 else st.stats.oneEighties
          tonPlus := if 100 ≤ score then st.stats.tonPlus + 1 else st.stats.tonPlus
          averagePerDart := if 0 < st.dartsThrown + darts.length
            then ((st.stats.totalScore + score : Int) : ℚ) /
              ((st.dartsThrown + darts.length : Nat) : ℚ)
            else 0
          averagePerTurn := if 0 < st.rounds + 1
            then ((st.stats.totalScore + score : Int) : ℚ) / ((st.rounds + 1 : Nat) : ℚ)
            else 0
          checkoutAttempts := if remaining ≤ 170 then st.stats.checkoutAttempts + 1
            else st.stats.checkoutAttempts
          checkoutHits := if remaining ≤ 170 then
              (if remaining = 0 then st.stats.checkoutHits + 1 else st.stats.checkoutHits)
            else st.stats.checkoutHits } } := by
  unfold endTurnPlayer
  dsimp only
  by_cases h170 : remaining ≤ 170
  · rw [if_pos ⟨h170, rfl⟩]
    simp only [if_pos h170]
    rfl
  · rw [if_neg (fun h => h170 h.1)]
    simp only [if_neg h170]
    rfl

theorem endTurn_playerStates (gs : X01GameState) (darts : List DartSegment)
    (score : Int) (bust : Bool) (remaining : Int) :
    (endTurn gs darts score bust remaining).playerStates =
      setPlayer gs.playerStates gs.currentPlayer
        (endTurnPlayer (getPlayer gs.playerStates gs.currentPlayer)
          darts score bust remaining) := by
  unfold endTurn
  dsimp only
  split <;> rfl

theorem endTurn_undoHistory (gs : X01GameState) (darts : List DartSegment)
    (score : Int) (bust : Bool) (remaining : Int) :
    (endTurn gs darts score bust remaining).undoHistory = gs.undoHistory := by
  unfold endTurn
  dsimp only
  split <;> rfl

theorem endTurn_checkout (gs : X01GameState) (darts : List DartSegment)
    (score remaining : Int) (h : remaining = 0) :
    (endTurn gs darts score false remaining).isGameOver = true ∧
    (endTurn gs darts score false remaining).winner = some gs.currentPlayer := by
  unfold endTurn
  dsimp only
  rw [if_pos ⟨h, rfl⟩]
  exact ⟨rfl, rfl⟩

theorem endTurn_continue (gs : X01GameState) (darts : List DartSegment)
    (score : Int) (bust : Bool) (remaining : Int)
    (h : ¬(remaining = 0 ∧ bust = false)) :
    (endTurn gs darts score bust remaining).currentPlayer = otherPlayer gs.currentPlayer ∧
    (endTurn gs darts score bust remaining).currentTurnDarts = [] ∧
    (endTurn gs darts score bust remaining).turnScore = 0 ∧
    (endTurn gs darts score bust remaining).isBust = false ∧
    (endTurn gs darts score bust remaining).isGameOver = gs.isGameOver ∧
    (endTurn gs darts score bust remaining).winner = gs.winner := by
  unfold endTurn
  dsimp only
  rw [if_neg h]
  exact ⟨rfl, rfl, rfl, rfl, rfl, rfl⟩

/-- C5 (amended): the end-of-turn update of the thrower's player state.  On a
busted turn only the turn history, dart count, round count and the two averages
change — the counting statistics (total score, highest turn, 180s, 100+), the
checkout counters and the stored remaining are untouched.  On a completed
(non-bust) turn the counting statistics are updated from the turn score, the
remaining becomes the post-turn remaining, and a checkout attempt is recorded
exactly when the post-turn remaining is ≤ 170 (not the start-of-turn remaining,
as the claim stated), with a hit exactly when the turn finished the leg.  The
averages are recomputed on every completed turn, busts included. -/
theorem c5_amended_endTurn_stats (gs : X01GameState) (darts : List DartSegment)
    (score : Int) (bust : Bool) (remaining : Int) :
    (bust = true →
      getPlayer (endTurn gs darts score bust remaining).playerStates gs.currentPlayer =
        (let st := getPlayer gs.playerStates gs.currentPlayer
         { st with
           turnHistory := st.turnHistory ++ [⟨darts, 0, true, st.remaining⟩]
           dartsThrown := st.dartsThrown + darts.length
           rounds := st.rounds + 1
           stats := { st.stats with
             averagePerDart := if 0 < st.dartsThrown + darts.length
               then (st.stats.totalScore : ℚ) / ((st.dartsThrown + darts.length : Nat) : ℚ)
               else 0
             averagePerTurn := if 0 < st.rounds + 1
               then (st.stats.totalScore : ℚ) / ((st.rounds + 1 : Nat) : ℚ)
               else 0 } })) ∧
    (bust = false →
      getPlayer (endTurn gs darts score bust remaining).playerStates gs.currentPlayer =
        (let st := getPlayer gs.playerStates gs.currentPlayer
         { st with
           remaining := remaining
           hasStarted := true
           turnHistory := st.turnHistory ++ [⟨darts, score, false, remaining⟩]
           dartsThrown := st.dartsThrown + darts.length
           rounds := st.rounds + 1
           stats := { st.stats with
             totalScore := st.stats.totalScore + score
             highestTurn := if st.stats.highestTurn < score then score
               else st.stats.highestTurn
             oneEighties := if score = 180 then st.stats.oneEighties + 1
               else st.stats.oneEighties
             tonPlus := if 100 ≤ score then st.stats.tonPlus + 1 else st.stats.tonPlus
             averagePerDart := if 0 < st.dartsThrown + darts.length
               then ((st.stats.totalScore + score : Int) : ℚ) /
                 ((st.dartsThrown + darts.length : Nat) : ℚ)
               else 0
             averagePerTurn := if 0 < st.rounds + 1
               then ((st.stats.totalScore + score : Int) : ℚ) / ((st.rounds + 1 : Nat) : ℚ)
               else 0
             checkoutAttempts := if remaining ≤ 170 then st.stats.checkoutAttempts + 1
               else st.stats.checkoutAttempts
             checkoutHits := if remaining ≤ 170 then
                 (if remaining = 0 then st.stats.checkoutHits + 1 else st.stats.checkoutHits)
               else st.stats.checkoutHits } })) := by
  constructor
  · intro hb
    subst hb
    rw [endTurn_playerStates, getPlayer_setPlayer, endTurnPlayer_bust]
  · intro hb
    subst hb
    rw [endTurn_playerStates, getPlayer_setPlayer, endTurnPlayer_clear]

/-- Witness for C5 (amended): after a concrete busted turn (T20 thrown at 32),
the round count went up by one while the checkout counters stayed at zero. -/
theorem c5_amended_endTurn_stats_witness :
    (getPlayer (endTurn (initialX01Game ⟨false, true, 32, false, false⟩)
        [createSegment 20 3] 0 true 32).playerStates
      (initialX01Game ⟨false, true, 32, false, false⟩).currentPlayer).rounds = 1 ∧
    (getPlayer (endTurn (initialX01Game ⟨false, true, 32, false, false⟩)
        [createSegment 20 3] 0 true 32).playerStates
      (initialX01Game ⟨false, true, 32, false, false⟩).currentPlayer).stats.checkoutAttempts
      = 0 := by
  have h := (c5_amended_endTurn_stats (initialX01Game ⟨false, true, 32, false, false⟩)
    [createSegment 20 3] 0 true 32).1 rfl
  rw [h]
  exact ⟨rfl, rfl⟩

theorem turnHistory_append_iff {l : List X01Turn} {u : X01Turn} :
    (∃ t : X01Turn, l ++ [u] = l ++ [t] ∧ t.isBust = true) ↔ u.isBust = true := by
  constructor
  · rintro ⟨t, ht, hb⟩
    have hu : u = t := by simpa using List.append_cancel_left ht
    rw [hu]
    exact hb
  · intro hb
    exact ⟨u, rfl, hb⟩

theorem turnHistory_no_append {l : List X01Turn} :
    ¬∃ t : X01Turn, l = l ++ [t] ∧ t.isBust = true := by
  rintro ⟨t, ht, _⟩
  have := congrArg List.length ht
  simp at this

/-- C2: for a human dart that actually counts (the handler guards pass and the
double-in dead-dart branch does not apply — the spec itself says a dead dart
\"does not count toward bust\"), with `R` the in-turn remaining and
`R' = R − S.score`: a bust-marked turn is recorded exactly when `R' < 0`, or
double-out is on and `R' = 1`, or double-out is on and `R' = 0` with a
non-double dart; on a bust the player's stored remaining stays at its pre-turn
value, the turn ends immediately (active player flips, the in-progress darts
reset) with the busting dart recorded in the turn history; and a non-bust dart
reaching `R' = 0` ends the game with this player as the winner. -/
theorem c2_x01_bust_conditions_and_checkout (cfg : GameConfig) (gs : X01GameState)
    (segment : DartSegment)
    (hover : gs.isGameOver = false) (hbust : gs.isBust = false)
    (hhuman : cfg.computerAt gs.currentPlayer = false)
    (hdi : ¬(cfg.doubleIn = true ∧
      (getPlayer gs.playerStates gs.currentPlayer).hasStarted = false ∧
      ¬(segment.multiplier = 2))) :
    let st := getPlayer gs.playerStates gs.currentPlayer
    let rNew := st.remaining - gs.turnScore - (segment.score : Int)
    let bustCond := rNew < 0 ∨ (cfg.doubleOut = true ∧ rNew = 1) ∨
      (cfg.doubleOut = true ∧ rNew = 0 ∧ ¬(segment.multiplier = 2))
    let gsNext := handleDartScore cfg gs segment
    let stNext := getPlayer gsNext.playerStates gs.currentPlayer
    ((∃ t : X01Turn, stNext.turnHistory = st.turnHistory ++ [t] ∧ t.isBust = true) ↔
      bustCond) ∧
    (bustCond →
      stNext.remaining = st.remaining ∧
      gsNext.currentPlayer = otherPlayer gs.currentPlayer ∧
      gsNext.currentTurnDarts = [] ∧
      stNext.turnHistory = st.turnHistory ++
        [⟨gs.currentTurnDarts ++ [segment], 0, true, st.remaining⟩] ∧
      gsNext.isGameOver = false) ∧
    (¬bustCond → rNew = 0 →
      gsNext.isGameOver = true ∧ gsNext.winner = some gs.currentPlayer ∧
      stNext.remaining = 0) := by
  dsimp only
  unfold handleDartScore
  rw [if_neg (by simp [hover, hbust]), if_neg (by simp [hhuman])]
  dsimp only
  rw [if_neg hdi]
  by_cases hA : cfg.doubleOut = true ∧
      (getPlayer gs.playerStates gs.currentPlayer).remaining - gs.turnScore -
        (segment.score : Int) = 0 ∧ ¬(segment.multiplier = 2)
  · rw [if_pos hA, endTurn_playerStates]
    dsimp only
    rw [getPlayer_setPlayer, endTurnPlayer_bust]
    obtain ⟨hc1, hc2, hc3, hc4, hc5, hc6⟩ :=
      endTurn_continue ⟨gs.playerStates, gs.currentPlayer,
        gs.currentTurnDarts ++ [segment], gs.turnScore, true, gs.isGameOver, gs.winner,
        gs.undoHistory ++ [mkSnapshot gs]⟩ (gs.currentTurnDarts ++ [segment]) 0 true
        (getPlayer gs.playerStates gs.currentPlayer).remaining
        (fun hc => nomatch hc.2)
    refine ⟨?_, ?_, ?_⟩
    · rw [turnHistory_append_iff]
      exact ⟨fun _ => Or.inr (Or.inr hA), fun _ => rfl⟩
    · refine fun _ => ⟨rfl, ?_, ?_, rfl, ?_⟩
      · rw [hc1]
      · rw [hc2]
      · rw [hc5]
        exact hover
    · exact fun hnb _ => absurd (Or.inr (Or.inr hA)) hnb
  · rw [if_neg hA]
    by_cases hB : (getPlayer gs.playerStates gs.currentPlayer).remaining - gs.turnScore -
        (segment.score : Int) < 0 ∨
      (cfg.doubleOut = true ∧ (getPlayer gs.playerStates gs.currentPlayer).remaining -
        gs.turnScore - (segment.score : Int) = 1)
    · rw [if_pos hB, endTurn_playerStates]
      dsimp only
      rw [getPlayer_setPlayer, endTurnPlayer_bust]
      obtain ⟨hc1, hc2, hc3, hc4, hc5, hc6⟩ :=
        endTurn_continue ⟨gs.playerStates, gs.currentPlayer,
          gs.currentTurnDarts ++ [segment], gs.turnScore, true, gs.isGameOver, gs.winner,
          gs.undoHistory ++ [mkSnapshot gs]⟩ (gs.currentTurnDarts ++ [segment]) 0 true
          (getPlayer gs.playerStates gs.currentPlayer).remaining
          (fun hc => nomatch hc.2)
      refine ⟨?_, ?_, ?_⟩
      · rw [turnHistory_append_iff]
        refine ⟨fun _ => ?_, fun _ => rfl⟩
        rcases hB with h | h
        · exact Or.inl h
        · exact Or.inr (Or.inl h)
      · refine fun _ => ⟨rfl, ?_, ?_, rfl, ?_⟩
        · rw [hc1]
        · rw [hc2]
        · rw [hc5]
          exact hover
      · intro hnb _
        rcases hB with h | h
        · exact absurd (Or.inl h) hnb
        · exact absurd (Or.inr (Or.inl h)) hnb
    · rw [if_neg hB]
      have hnb : ¬((getPlayer gs.playerStates gs.currentPlayer).remaining - gs.turnScore -
          (segment.score : Int) < 0 ∨
        (cfg.doubleOut = true ∧ (getPlayer gs.playerStates gs.currentPlayer).remaining -
          gs.turnScore - (segment.score : Int) = 1) ∨
        (cfg.doubleOut = true ∧ (getPlayer gs.playerStates gs.currentPlayer).remaining -
          gs.turnScore - (segment.score : Int) = 0 ∧ ¬(segment.multiplier = 2))) := by
        rintro (h | h | h)
        · exact hB (Or.inl h)
        · exact hB (Or.inr h)
        · exact hA h
      by_cases hC : (getPlayer gs.playerStates gs.currentPlayer).remaining - gs.turnScore -
          (segment.score : Int) = 0
      · rw [if_pos hC]
        obtain ⟨hgo, hwin⟩ := endTurn_checkout ⟨gs.playerStates, gs.currentPlayer,
          gs.currentTurnDarts ++ [segment], gs.turnScore + (segment.score : Int), gs.isBust,
          gs.isGameOver, gs.winner, gs.undoHistory ++ [mkSnapshot gs]⟩
          (gs.currentTurnDarts ++ [segment]) (gs.turnScore + (segment.score : Int)) 0 rfl
        refine ⟨?_, fun hb => absurd hb hnb, fun _ _ => ⟨?_, ?_, ?_⟩⟩
        · rw [endTurn_playerStates]
          dsimp only
          rw [getPlayer_setPlayer, endTurnPlayer_clear]
          dsimp only
          rw [turnHistory_append_iff]
          exact ⟨(fun h => nomatch h), fun h => absurd h hnb⟩
        · rw [hgo]
        · rw [hwin]
        · rw [endTurn_playerStates]
          dsimp only
          rw [getPlayer_setPlayer, endTurnPlayer_clear]
      · rw [if_neg hC]
        by_cases hD : 3 ≤ (gs.currentTurnDarts ++ [segment]).length
        · rw [if_pos hD]
          refine ⟨?_, fun hb => absurd hb hnb, fun _ h0 => absurd h0 hC⟩
          rw [endTurn_playerStates]
          dsimp only
          rw [getPlayer_setPlayer, endTurnPlayer_clear]
          dsimp only
          rw [turnHistory_append_iff]
          exact ⟨(fun h => nomatch h), fun h => absurd h hnb⟩
        · rw [if_neg hD]
          exact ⟨⟨fun h => absurd h turnHistory_no_append, fun h => absurd h hnb⟩,
            fun hb => absurd hb hnb, fun _ h0 => absurd h0 hC⟩

/-- Witness for C2: at 32 remaining with double-out on, a T11 (33) overshoots —
the dart busts, the turn ends with the pre-turn remaining kept, and the busting
dart is recorded in the turn history. -/
theorem c2_x01_bust_conditions_and_checkout_witness :
    let cfg : GameConfig := ⟨false, true, 32, false, false⟩
    let gs := initialX01Game cfg
    let gsNext := handleDartScore cfg gs (createSegment 11 3)
    (getPlayer gsNext.playerStates 0).remaining = 32 ∧
    gsNext.currentPlayer = 1 ∧
    (getPlayer gsNext.playerStates 0).turnHistory =
      [⟨[createSegment 11 3], 0, true, 32⟩] := by
  have h := c2_x01_bust_conditions_and_checkout ⟨false, true, 32, false, false⟩
    (initialX01Game ⟨false, true, 32, false, false⟩) (createSegment 11 3)
    rfl rfl rfl (by intro hc; exact absurd hc.1 (by decide))
  obtain ⟨hrem, hcur, _, hhist, _⟩ := h.2.1 (Or.inl (by decide))
  exact ⟨hrem, hcur.trans rfl, hhist.trans rfl⟩

theorem handleDartScore_undoHistory (cfg : GameConfig) (gs : X01GameState)
    (segment : DartSegment) (hover : gs.isGameOver = false) (hbust : gs.isBust = false)
    (hhuman : cfg.computerAt gs.currentPlayer = false) :
    (handleDartScore cfg gs segment).undoHistory = gs.undoHistory ++ [mkSnapshot gs] := by
  unfold handleDartScore
  rw [if_neg (by simp [hover, hbust]), if_neg (by simp [hhuman])]
  dsimp only
  repeat' split
  all_goals simp [endTurn_undoHistory]

/-- Undoing right after an applied dart restores the pre-dart state exactly. -/
theorem handleUndo_handleDartScore (cfg : GameConfig) (gs : X01GameState)
    (segment : DartSegment) (hover : gs.isGameOver = false) (hbust : gs.isBust = false)
    (hhuman : cfg.computerAt gs.currentPlayer = false) (hwin : gs.winner = none) :
    handleUndo (handleDartScore cfg gs segment) = gs := by
  unfold handleUndo
  rw [handleDartScore_undoHistory cfg gs segment hover hbust hhuman,
    List.getLast?_concat]
  dsimp only
  rw [List.dropLast_concat]
  cases gs
  simp_all [mkSnapshot]

theorem endTurn_winner_or_over (gs : X01GameState) (darts : List DartSegment)
    (score : Int) (bust : Bool) (remaining : Int) :
    (endTurn gs darts score bust remaining).winner = gs.winner ∨
    (endTurn gs darts score bust remaining).isGameOver = true := by
  unfold endTurn
  dsimp only
  split
  · exact Or.inr rfl
  · exact Or.inl rfl

theorem handleDartScore_winner_or_over (cfg : GameConfig) (gs : X01GameState)
    (segment : DartSegment) :
    (handleDartScore cfg gs segment).winner = gs.winner ∨
    (handleDartScore cfg gs segment).isGameOver = true := by
  unfold handleDartScore
  dsimp only
  repeat' split
  all_goals first
    | exact Or.inl rfl
    | exact (endTurn_winner_or_over _ _ _ _ _).imp (fun h => h.trans rfl) id

/-- C7: undo round-trip.  Applying any sequence of N human darts — each of
which actually counts (the handler guards pass at its point of application) —
and then undoing N times restores the exact starting state, by equality of the
whole game state (player states, active player, in-progress turn darts and
accumulators, and the cleared game-over flag and winner).  Undo on an empty
history changes nothing. -/
theorem c7_undo_restores_state (cfg : GameConfig) :
    (∀ (gs : X01GameState) (ds : List DartSegment),
      gs.isGameOver = false → gs.winner = none → allEffective cfg gs ds →
      undoTimes ds.length (applyDarts cfg gs ds) = gs) ∧
    (∀ gs : X01GameState, gs.undoHistory = [] → handleUndo gs = gs) := by
  constructor
  · intro gs ds
    induction ds generalizing gs with
    | nil => exact fun _ _ _ => rfl
    | cons d ds ih =>
      intro hover hwin hall
      obtain ⟨⟨ho, hb, hh⟩, hrest⟩ := hall
      have hstep : undoTimes (d :: ds).length (applyDarts cfg gs (d :: ds)) =
          handleUndo (undoTimes ds.length (applyDarts cfg (handleDartScore cfg gs d) ds)) :=
        rfl
      rw [hstep]
      cases ds with
      | nil =>
        exact handleUndo_handleDartScore cfg gs d hover hb hh hwin
      | cons d2 ds2 =>
        have hgo2 : (handleDartScore cfg gs d).isGameOver = false := hrest.1.1
        have hwin2 : (handleDartScore cfg gs d).winner = none := by
          rcases handleDartScore_winner_or_over cfg gs d with h | h
          · exact h.trans hwin
          · rw [h] at hgo2
            cases hgo2
        rw [ih (handleDartScore cfg gs d) hgo2 hwin2 hrest]
        exact handleUndo_handleDartScore cfg gs d hover hb hh hwin
  · intro gs h
    unfold handleUndo
    rw [h]
    rfl

/-- Witness for C7: one dart applied to a fresh 501 double-out match, then one
undo, gives back the initial state; and undo on the fresh (empty-history) state
is a no-op. -/
theorem c7_undo_restores_state_witness :
    undoTimes 1 (applyDarts ⟨false, true, 501, false, false⟩
        (initialX01Game ⟨false, true, 501, false, false⟩) [createSegment 20 1]) =
      initialX01Game ⟨false, true, 501, false, false⟩ ∧
    handleUndo (initialX01Game ⟨false, true, 501, false, false⟩) =
      initialX01Game ⟨false, true, 501, false, false⟩ := by
  constructor
  · exact (c7_undo_restores_state ⟨false, true, 501, false, false⟩).1
      (initialX01Game ⟨false, true, 501, false, false⟩) [createSegment 20 1]
      rfl rfl ⟨⟨rfl, rfl, rfl⟩, trivial⟩
  · exact (c7_undo_restores_state ⟨false, true, 501, false, false⟩).2
      (initialX01Game ⟨false, true, 501, false, false⟩) rfl

/-! ## The Cricket turn engine (`CricketGame.tsx`)

`marks` is the `Record<number, number>` map, modelled as a total function that
the code only ever reads at the seven cricket numbers; the deep clones of the
source are the identity on pure values. -/

def CRICKET_NUMBERS : List Nat := [20, 19, 18, 17, 16, 15, 25]

structure CricketTurn where
  darts : List DartSegment
  marksScored : Nat
  pointsScored : Nat

structure CricketPlayerState where
  marks : Nat → Nat
  points : Nat
  dartsThrown : Nat
  rounds : Nat
  turnHistory : List CricketTurn

/-- Pointwise update of a `Record<number, number>`. -/
def updateFn (f : Nat → Nat) (k v : Nat) : Nat → Nat :=
  fun n => if n = k then v else f n

def createInitialCricketState : CricketPlayerState :=
  ⟨fun _ => 0, 0, 0, 0, []⟩

/-- One increment of the `for (let i = 0; i < hitsToApply; i++)` loop of
`processCricketDart`.  `oppMarks` is the opponent's mark count, read once
before the loop as in the source (the loop never changes the opponent). -/
def cricketIncrement (hitNumber oppMarks : Nat) (i : Fin 2)
    (acc : (CricketPlayerState × CricketPlayerState) × Nat × Nat) :
    (CricketPlayerState × CricketPlayerState) × Nat × Nat :=
  let states := acc.1
  let my := getPlayer states i
  let myMarks := my.marks hitNumber
  if myMarks < 3 then
    (setPlayer states i { my with marks := updateFn my.marks hitNumber (myMarks + 1) },
      acc.2.1 + 1, acc.2.2)
  else if oppMarks < 3 then
    let pointValue := if hitNumber = 25 then 25 else hitNumber
    (setPlayer states i { my with points := my.points + pointValue },
      acc.2.1, acc.2.2 + pointValue)
  else acc

/-- The increment loop, run `hitsToApply` times. -/
def cricketLoop (hitNumber oppMarks : Nat) (i : Fin 2) :
    Nat → ((CricketPlayerState × CricketPlayerState) × Nat × Nat) →
      (CricketPlayerState × CricketPlayerState) × Nat × Nat
  | 0, acc => acc
  | k + 1, acc =>
    cricketLoop hitNumber oppMarks i k (cricketIncrement hitNumber oppMarks i acc)

/-- `processCricketDart(segment, states, playerIdx)` (CricketGame.tsx); the
result is `(newStates, marksAdded, pointsAdded)`. -/
def processCricketDart (segment : DartSegment)
    (states : CricketPlayerState × CricketPlayerState) (playerIdx : Fin 2) :
    (CricketPlayerState × CricketPlayerState) × Nat × Nat :=
  let hitNumber := segment.number
  if hitNumber ∈ CRICKET_NUMBERS then
    let oppMarks := (getPlayer states (otherPlayer playerIdx)).marks hitNumber
    cricketLoop hitNumber oppMarks playerIdx segment.multiplier (states, 0, 0)
  else (states, 0, 0)

/-- `checkWin(states)` — the first player (index order) with all seven numbers
at ≥ 3 marks and at least the opponent's points. -/
def checkWin (states : CricketPlayerState × CricketPlayerState) : Option (Fin 2) :=
  if CRICKET_NUMBERS.all (fun n => 3 ≤ (getPlayer states 0).marks n) ∧
      (getPlayer states 1).points ≤ (getPlayer states 0).points then some 0
  else if CRICKET_NUMBERS.all (fun n => 3 ≤ (getPlayer states 1).marks n) ∧
      (getPlayer states 0).points ≤ (getPlayer states 1).points then some 1
  else none

structure CricketSnapshot where
  playerStates : CricketPlayerState × CricketPlayerState
  currentPlayer : Fin 2
  currentTurnDarts : List DartSegment
  turnMarks : Nat
  turnPoints : Nat

structure CricketGameState where
  playerStates : CricketPlayerState × CricketPlayerState
  currentPlayer : Fin 2
  currentTurnDarts : List DartSegment
  turnMarks : Nat
  turnPoints : Nat
  isGameOver : Bool
  winner : Option (Fin 2)
  undoHistory : List CricketSnapshot

/-- `endTurn` (CricketGame.tsx): record the turn, then check the win condition
after the completed turn. -/
def cricketEndTurn (gs : CricketGameState) (darts : List DartSegment)
    (marks points : Nat) (states : CricketPlayerState × CricketPlayerState)
    (player : Fin 2) : CricketGameState :=
  let st := getPlayer states player
  let st := { st with
    turnHistory := st.turnHistory ++ [⟨darts, marks, points⟩],
    dartsThrown := st.dartsThrown + darts.length,
    rounds := st.rounds + 1 }
  let newStates := setPlayer states player st
  match checkWin newStates with
  | some w => { gs with playerStates := newStates, isGameOver := true, winner := some w }
  | none =>
    { gs with
      playerStates := newStates
      currentPlayer := otherPlayer gs.currentPlayer
      currentTurnDarts := []
      turnMarks := 0
      turnPoints := 0 }

/-- `handleDartScore(segment)` (CricketGame.tsx), with the delayed `endTurn`
composed synchronously. -/
def cricketHandleDartScore (cfg : GameConfig) (gs : CricketGameState)
    (segment : DartSegment) : CricketGameState :=
  if gs.isGameOver = true then gs
  else if cfg.computerAt gs.currentPlayer = true then gs
  else
    let snapshot : CricketSnapshot :=
      ⟨gs.playerStates, gs.currentPlayer, gs.currentTurnDarts, gs.turnMarks, gs.turnPoints⟩
    let result := processCricketDart segment gs.playerStates gs.currentPlayer
    let newDarts := gs.currentTurnDarts ++ [segment]
    let newMarks := gs.turnMarks + result.2.1
    let newPoints := gs.turnPoints + result.2.2
    let gs1 : CricketGameState :=
      { gs with
        playerStates := result.1
        currentTurnDarts := newDarts
        turnMarks := newMarks
        turnPoints := newPoints
        undoHistory := gs.undoHistory ++ [snapshot] }
    match checkWin result.1 with
    | some w =>
      let winnerState := getPlayer result.1 gs.currentPlayer
      let winnerState := { winnerState with
        turnHistory := winnerState.turnHistory ++ [⟨newDarts, newMarks, newPoints⟩],
        dartsThrown := winnerState.dartsThrown + newDarts.length,
        rounds := winnerState.rounds + 1 }
      { gs1 with
        playerStates := setPlayer result.1 gs.currentPlayer winnerState
        isGameOver := true
        winner := some w }
    | none =>
      if 3 ≤ newDarts.length then
        cricketEndTurn gs1 newDarts newMarks newPoints result.1 gs.currentPlayer
      else gs1

theorem otherPlayer_ne (i : Fin 2) : otherPlayer i ≠ i := by
  fin_cases i <;> decide

/-- One increment never touches the opponent's player state. -/
theorem cricketIncrement_opp (hitNumber oppMarks : Nat) (i : Fin 2)
    (acc : (CricketPlayerState × CricketPlayerState) × Nat × Nat) :
    getPlayer (cricketIncrement hitNumber oppMarks i acc).1 (otherPlayer i) =
      getPlayer acc.1 (otherPlayer i) := by
  unfold cricketIncrement
  dsimp only
  split_ifs with h1 h2 h3
  · exact getPlayer_setPlayer_ne _ _ _ _ (otherPlayer_ne i)
  · exact getPlayer_setPlayer_ne _ _ _ _ (otherPlayer_ne i)
  · exact getPlayer_setPlayer_ne _ _ _ _ (otherPlayer_ne i)
  · rfl

/-- One increment never decreases a mark count or a point total. -/
theorem cricketIncrement_mono (hitNumber oppMarks : Nat) (i : Fin 2)
    (acc : (CricketPlayerState × CricketPlayerState) × Nat × Nat) :
    (∀ (j : Fin 2) (n : Nat), (getPlayer acc.1 j).marks n ≤
      (getPlayer (cricketIncrement hitNumber oppMarks i acc).1 j).marks n) ∧
    (∀ j : Fin 2, (getPlayer acc.1 j).points ≤
      (getPlayer (cricketIncrement hitNumber oppMarks i acc).1 j).points) := by
  unfold cricketIncrement
  dsimp only
  by_cases h1 : (getPlayer acc.1 i).marks hitNumber < 3
  · rw [if_pos h1]
    refine ⟨fun j n => ?_, fun j => ?_⟩
    · by_cases hj : j = i
      · subst hj
        rw [getPlayer_setPlayer]
        dsimp only
        simp only [updateFn]
        by_cases hn : n = hitNumber
        · rw [if_pos hn, hn]
          exact Nat.le_succ _
        · rw [if_neg hn]
      · rw [getPlayer_setPlayer_ne _ _ _ _ hj]
    · by_cases hj : j = i
      · subst hj
        rw [getPlayer_setPlayer]
      · rw [getPlayer_setPlayer_ne _ _ _ _ hj]
  · rw [if_neg h1]
    by_cases h2 : oppMarks < 3
    · rw [if_pos h2]
      refine ⟨fun j n => ?_, fun j => ?_⟩
      · by_cases hj : j = i
        · subst hj
          rw [getPlayer_setPlayer]
        · rw [getPlayer_setPlayer_ne _ _ _ _ hj]
      · by_cases hj : j = i
        · subst hj
          rw [getPlayer_setPlayer]
          exact Nat.le_add_right _ _
        · rw [getPlayer_setPlayer_ne _ _ _ _ hj]
    · rw [if_neg h2]
      exact ⟨fun _ _ => Nat.le_refl _, fun _ => Nat.le_refl _⟩

/-- The loop inherits both frame properties from the single increment. -/
theorem cricketLoop_frame (hitNumber oppMarks : Nat) (i : Fin 2) (k : Nat) :
    ∀ acc : (CricketPlayerState × CricketPlayerState) × Nat × Nat,
    (getPlayer (cricketLoop hitNumber oppMarks i k acc).1 (otherPlayer i) =
      getPlayer acc.1 (otherPlayer i)) ∧
    (∀ (j : Fin 2) (n : Nat), (getPlayer acc.1 j).marks n ≤
      (getPlayer (cricketLoop hitNumber oppMarks i k acc).1 j).marks n) ∧
    (∀ j : Fin 2, (getPlayer acc.1 j).points ≤
      (getPlayer (cricketLoop hitNumber oppMarks i k acc).1 j).points) := by
  induction k with
  | zero => exact fun acc => ⟨rfl, fun _ _ => Nat.le_refl _, fun _ => Nat.le_refl _⟩
  | succ k ih =>
    intro acc
    obtain ⟨hm, hp⟩ := cricketIncrement_mono hitNumber oppMarks i acc
    have ho := cricketIncrement_opp hitNumber oppMarks i acc
    obtain ⟨ho2, hm2, hp2⟩ := ih (cricketIncrement hitNumber oppMarks i acc)
    exact ⟨ho2.trans ho, fun j n => (hm j n).trans (hm2 j n),
      fun j => (hp j).trans (hp2 j)⟩

/-- C10: a single processed cricket dart for player `i` leaves the opponent's
state untouched, never decreases any mark count or point total of either
player, and on a number outside the seven cricket numbers (including a miss)
returns the states unchanged with zero marks and points added. -/
theorem c10_processCricketDart_frame (segment : DartSegment)
    (states : CricketPlayerState × CricketPlayerState) (i : Fin 2) :
    (getPlayer (processCricketDart segment states i).1 (otherPlayer i) =
      getPlayer states (otherPlayer i)) ∧
    (∀ (j : Fin 2) (n : Nat), (getPlayer states j).marks n ≤
      (getPlayer (processCricketDart segment states i).1 j).marks n) ∧
    (∀ j : Fin 2, (getPlayer states j).points ≤
      (getPlayer (processCricketDart segment states i).1 j).points) ∧
    (segment.number ∉ CRICKET_NUMBERS →
      processCricketDart segment states i = (states, 0, 0)) := by
  by_cases hmem : segment.number ∈ CRICKET_NUMBERS
  · have hpc : processCricketDart segment states i =
        cricketLoop segment.number
          ((getPlayer states (otherPlayer i)).marks segment.number) i
          segment.multiplier (states, 0, 0) := by
      unfold processCricketDart
      dsimp only
      rw [if_pos hmem]
    have h := cricketLoop_frame segment.number
      ((getPlayer states (otherPlayer i)).marks segment.number) i
      segment.multiplier (states, 0, 0)
    rw [hpc]
    exact ⟨h.1, h.2.1, h.2.2, fun hn => absurd hmem hn⟩
  · have hpc : processCricketDart segment states i = (states, 0, 0) := by
      unfold processCricketDart
      dsimp only
      rw [if_neg hmem]
    rw [hpc]
    exact ⟨rfl, fun _ _ => Nat.le_refl _, fun _ => Nat.le_refl _, fun _ => rfl⟩

/-- Witness for C10: a miss on a fresh cricket match changes nothing. -/
theorem c10_processCricketDart_frame_witness :
    processCricketDart MISS (createInitialCricketState, createInitialCricketState) 0 =
      ((createInitialCricketState, createInitialCricketState), 0, 0) :=
  (c10_processCricketDart_frame MISS
    (createInitialCricketState, createInitialCricketState) 0).2.2.2 (by decide)

/-- Increment as the claim words it: the opponent's mark count is re-read from
the current states at every increment instead of once before the loop. -/
def cricketIncrementLive (hitNumber : Nat) (i : Fin 2)
    (acc : (CricketPlayerState × CricketPlayerState) × Nat × Nat) :
    (CricketPlayerState × CricketPlayerState) × Nat × Nat :=
  cricketIncrement hitNumber ((getPlayer acc.1 (otherPlayer i)).marks hitNumber) i acc

/-- The claim's rule: `multiplier` live-read increments in sequence. -/
def cricketLoopLive (hitNumber : Nat) (i : Fin 2) :
    Nat → ((CricketPlayerState × CricketPlayerState) × Nat × Nat) →
      (CricketPlayerState × CricketPlayerState) × Nat × Nat
  | 0, acc => acc
  | k + 1, acc => cricketLoopLive hitNumber i k (cricketIncrementLive hitNumber i acc)

/-- Reading the opponent's mark count once before the loop agrees with
re-reading it at every increment, because increments never touch the
opponent. -/
theorem cricketLoop_eq_live (hitNumber : Nat) (i : Fin 2) (k : Nat) :
    ∀ (acc : (CricketPlayerState × CricketPlayerState) × Nat × Nat) (om : Nat),
    om = (getPlayer acc.1 (otherPlayer i)).marks hitNumber →
    cricketLoop hitNumber om i k acc = cricketLoopLive hitNumber i k acc := by
  induction k with
  | zero => exact fun _ _ _ => rfl
  | succ k ih =>
    intro acc om hom
    have hinc : cricketIncrement hitNumber om i acc = cricketIncrementLive hitNumber i acc := by
      rw [hom]
      rfl
    simp only [cricketLoop, cricketLoopLive]
    rw [hinc]
    exact ih (cricketIncrementLive hitNumber i acc) om
      (by rw [← hinc, cricketIncrement_opp]; exact hom)

/-- The state of the claim's particular scenario: the thrower has two marks on
20, the opponent none. -/
def c3State : CricketPlayerState × CricketPlayerState :=
  ({ createInitialCricketState with marks := updateFn (fun _ => 0) 20 2 },
    createInitialCricketState)

/-- C3 counterexample: with two marks on 20 against an open opponent 20, a T20
adds 40 points (the close consumes one increment, the remaining two score 20
each), not the 20 points the claim states. -/
theorem c3_counterexample_t20_adds_40_points :
    (getPlayer c3State 0).marks 20 = 2 ∧
    (getPlayer c3State 1).marks 20 = 0 ∧
    (getPlayer (processCricketDart (createSegment 20 3) c3State 0).1 0).marks 20 = 3 ∧
    (processCricketDart (createSegment 20 3) c3State 0).2.2 = 40 ∧
    ¬(processCricketDart (createSegment 20 3) c3State 0).2.2 = 20 := by
  decide

/-- C3 (amended): on a cricket number the dart is processed as `multiplier`
sequential increments with the opponent's mark count re-read at every
increment — the source's single pre-loop read is equivalent because no
increment touches the opponent.  In the claim's particular scenario (two marks
on 20, opponent's 20 open) a T20 closes the thrower's 20 with one mark added
and adds 40 points, not 20: after the close the remaining two increments score
20 each. -/
theorem c3_amended_cricket_increments :
    (∀ (segment : DartSegment) (states : CricketPlayerState × CricketPlayerState)
      (i : Fin 2), segment.number ∈ CRICKET_NUMBERS →
      processCricketDart segment states i =
        cricketLoopLive segment.number i segment.multiplier (states, 0, 0)) ∧
    (∀ states : CricketPlayerState × CricketPlayerState,
      (getPlayer states 0).marks 20 = 2 →
      (getPlayer states 1).marks 20 < 3 →
      (getPlayer (processCricketDart (createSegment 20 3) states 0).1 0).marks 20 = 3 ∧
      (processCricketDart (createSegment 20 3) states 0).2.1 = 1 ∧
      (processCricketDart (createSegment 20 3) states 0).2.2 = 40) := by
  constructor
  · intro segment states i hmem
    have hpc : processCricketDart segment states i =
        cricketLoop segment.number
          ((getPlayer states (otherPlayer i)).marks segment.number) i
          segment.multiplier (states, 0, 0) := by
      unfold processCricketDart
      dsimp only
      rw [if_pos hmem]
    rw [hpc]
    exact cricketLoop_eq_live segment.number i segment.multiplier (states, 0, 0) _ rfl
  · intro states h2 hopp
    have h2' : states.1.marks 20 = 2 := h2
    have hopp' : states.2.marks 20 < 3 := hopp
    simp [processCricketDart, cricketLoop, cricketIncrement, createSegment,
      CRICKET_NUMBERS, updateFn, getPlayer, setPlayer, otherPlayer, h2', hopp']

/-- C6: `checkWin` returns a player exactly when that player has all seven
cricket numbers at three or more marks and at least the opponent's points; and
when the win is triggered by the current player's own dart, the handler marks
the game over with that winner and records the final turn (its darts, marks
and points) in the winner's state. -/
theorem c6_cricket_win_and_final_turn :
    (∀ (states : CricketPlayerState × CricketPlayerState) (p : Fin 2),
      (checkWin states = some p →
        (∀ n ∈ CRICKET_NUMBERS, 3 ≤ (getPlayer states p).marks n) ∧
        (getPlayer states (otherPlayer p)).points ≤ (getPlayer states p).points) ∧
      ((∀ n ∈ CRICKET_NUMBERS, 3 ≤ (getPlayer states p).marks n) →
        (getPlayer states (otherPlayer p)).points ≤ (getPlayer states p).points →
        (checkWin states).isSome = true)) ∧
    (∀ (cfg : GameConfig) (gs : CricketGameState) (segment : DartSegment) (w : Fin 2),
      gs.isGameOver = false →
      cfg.computerAt gs.currentPlayer = false →
      checkWin (processCricketDart segment gs.playerStates gs.currentPlayer).1 = some w →
      (cricketHandleDartScore cfg gs segment).isGameOver = true ∧
      (cricketHandleDartScore cfg gs segment).winner = some w ∧
      getPlayer (cricketHandleDartScore cfg gs segment).playerStates gs.currentPlayer =
        { getPlayer (processCricketDart segment gs.playerStates gs.currentPlayer).1
            gs.currentPlayer with
          turnHistory := (getPlayer (processCricketDart segment gs.playerStates
              gs.currentPlayer).1 gs.currentPlayer).turnHistory ++
            [⟨gs.currentTurnDarts ++ [segment],
              gs.turnMarks +
                (processCricketDart segment gs.playerStates gs.currentPlayer).2.1,
              gs.turnPoints +
                (processCricketDart segment gs.playerStates gs.currentPlayer).2.2⟩]
          dartsThrown := (getPlayer (processCricketDart segment gs.playerStates
              gs.currentPlayer).1 gs.currentPlayer).dartsThrown +
            (gs.currentTurnDarts ++ [segment]).length
          rounds := (getPlayer (processCricketDart segment gs.playerStates
              gs.currentPlayer).1 gs.currentPlayer).rounds + 1 }) := by
  constructor
  · intro states p
    constructor
    · intro hw
      unfold checkWin at hw
      split_ifs at hw with hc0 hc1
      · injection hw with hp
        subst hp
        refine ⟨?_, hc0.2⟩
        have h0 := hc0.1
        simp only [List.all_eq_true, decide_eq_true_eq] at h0
        exact h0
      · injection hw with hp
        subst hp
        refine ⟨?_, hc1.2⟩
        have h1 := hc1.1
        simp only [List.all_eq_true, decide_eq_true_eq] at h1
        exact h1
    · intro hall hpts
      unfold checkWin
      split_ifs with hc0 hc1
      · rfl
      · rfl
      · exfalso
        fin_cases p
        · exact hc0 ⟨by
            simp only [List.all_eq_true, decide_eq_true_eq]
            exact hall, hpts⟩
        · exact hc1 ⟨by
            simp only [List.all_eq_true, decide_eq_true_eq]
            exact hall, hpts⟩
  · intro cfg gs segment w hover hhuman hwin
    unfold cricketHandleDartScore
    rw [if_neg (by simp [hover]), if_neg (by simp [hhuman])]
    dsimp only
    rw [hwin]
    dsimp only
    rw [getPlayer_setPlayer]
    exact ⟨rfl, rfl, rfl⟩

/-- The state of the C6 witness scenario: the first player has two marks on 20
and three on every other number; the opponent has nothing. -/
def c6State : CricketPlayerState × CricketPlayerState :=
  ({ createInitialCricketState with marks := fun n => if n = 20 then 2 else 3 },
    createInitialCricketState)

def c6Game : CricketGameState :=
  ⟨c6State, 0, [], 0, 0, false, none, []⟩

/-- Witness for C6: a D20 closes the last number and wins on the spot, with
the winning turn recorded as the winner's first round. -/
theorem c6_cricket_win_and_final_turn_witness :
    (cricketHandleDartScore ⟨false, false, 0, false, false⟩ c6Game
      (createSegment 20 2)).isGameOver = true ∧
    (cricketHandleDartScore ⟨false, false, 0, false, false⟩ c6Game
      (createSegment 20 2)).winner = some 0 ∧
    (getPlayer (cricketHandleDartScore ⟨false, false, 0, false, false⟩ c6Game
      (createSegment 20 2)).playerStates c6Game.currentPlayer).rounds = 1 := by
  have h := c6_cricket_win_and_final_turn.2 ⟨false, false, 0, false, false⟩ c6Game
    (createSegment 20 2) 0 rfl rfl (by decide)
  refine ⟨h.1, h.2.1, ?_⟩
  rw [h.2.2]
  decide

/-- Witness for C3 (amended): both parts applied to the concrete scenario
state. -/
theorem c3_amended_cricket_increments_witness :
    (processCricketDart (createSegment 20 3) c3State 0 =
      cricketLoopLive 20 0 3 (c3State, 0, 0)) ∧
    (getPlayer (processCricketDart (createSegment 20 3) c3State 0).1 0).marks 20 = 3 ∧
    (processCricketDart (createSegment 20 3) c3State 0).2.1 = 1 ∧
    (processCricketDart (createSegment 20 3) c3State 0).2.2 = 40 :=
  ⟨c3_amended_cricket_increments.1 (createSegment 20 3) c3State 0 (by decide),
    c3_amended_cricket_increments.2 c3State (by decide) (by decide)⟩

/-! ## Board geometry (`dartboard.ts`)

The floating-point geometry is idealised over the real numbers;
`Math.atan2(y, x)` is the principal argument of the complex number `x + y·i`,
and the JS `%` on the nonnegative values produced here is `a - b·⌊a/b⌋`. -/

def BOARD_NUMBERS : List Nat :=
  [20, 1, 18, 4, 13, 6, 10, 15, 2, 17, 3, 19, 7, 16, 8, 11, 14, 9, 12, 5]

noncomputable def SEGMENT_ANGLE : ℝ := 18

structure BoardRadiiT where
  DOUBLE_BULL : ℝ
  SINGLE_BULL : ℝ
  INNER_SINGLE_START : ℝ
  TRIPLE_START : ℝ
  TRIPLE_END : ℝ
  OUTER_SINGLE_START : ℝ
  DOUBLE_START : ℝ
  DOUBLE_END : ℝ

noncomputable def BOARD_RADII : BoardRadiiT :=
  ⟨6.35, 15.9, 15.9, 99, 107, 107, 162, 170⟩

/-- JS `Array.indexOf`, `-1` when absent. -/
def indexOfFrom : List Nat → Nat → Nat → Int
  | [], _, _ => -1
  | x :: xs, num, k => if x = num then (k : Int) else indexOfFrom xs num (k + 1)

/-- `getSegmentAngle(num)`. -/
noncomputable def getSegmentAngle (num : Nat) : ℝ :=
  let idx := indexOfFrom BOARD_NUMBERS num 0
  if idx = -1 then 0 else (idx : ℝ) * SEGMENT_ANGLE

/-- `getTargetRadius(multiplier, isBull)`. -/
noncomputable def getTargetRadius (multiplier : Nat) (isBull : Bool) : ℝ :=
  if isBull then
    if multiplier = 2 then 0
    else BOARD_RADII.DOUBLE_BULL + (BOARD_RADII.SINGLE_BULL - BOARD_RADII.DOUBLE_BULL) / 2
  else if multiplier = 3 then (BOARD_RADII.TRIPLE_START + BOARD_RADII.TRIPLE_END) / 2
  else if multiplier = 2 then (BOARD_RADII.DOUBLE_START + BOARD_RADII.DOUBLE_END) / 2
  else (BOARD_RADII.INNER_SINGLE_START + BOARD_RADII.TRIPLE_START) / 2

/-- `polarToCartesian(angleDeg, radius)`: angle 0 at the top, clockwise. -/
noncomputable def polarToCartesian (angleDeg radius : ℝ) : ℝ × ℝ :=
  let angleRad := (angleDeg - 90) * Real.pi / 180
  (radius * Real.cos angleRad, radius * Real.sin angleRad)

/-- `Math.atan2(y, x)`. -/
noncomputable def atan2 (y x : ℝ) : ℝ := Complex.arg ⟨x, y⟩

/-- `cartesianToPolar(x, y)`, returning `(angle, radius)`. -/
noncomputable def cartesianToPolar (x y : ℝ) : ℝ × ℝ :=
  let radius := Real.sqrt (x * x + y * y)
  let angle := atan2 y x * 180 / Real.pi + 90
  (if angle < 0 then angle + 360 else angle, radius)

/-- JS `%` on a nonnegative dividend and positive divisor. -/
noncomputable def jsMod (a b : ℝ) : ℝ := a - b * (⌊a / b⌋ : ℝ)

/-- `getSegmentAtPoint(x, y)`. -/
noncomputable def getSegmentAtPoint (x y : ℝ) : DartSegment :=
  let p := cartesianToPolar x y
  let angle := p.1
  let radius := p.2
  if BOARD_RADII.DOUBLE_END < radius then MISS
  else if radius ≤ BOARD_RADII.DOUBLE_BULL then DOUBLE_BULL
  else if radius ≤ BOARD_RADII.SINGLE_BULL then SINGLE_BULL
  else
    let adjustedAngle := jsMod (angle + SEGMENT_ANGLE / 2) 360
    let segmentIndex := (⌊adjustedAngle / SEGMENT_ANGLE⌋).toNat
    let number := BOARD_NUMBERS.getD (segmentIndex % 20) 0
    let multiplier : Nat :=
      if BOARD_RADII.TRIPLE_START ≤ radius ∧ radius ≤ BOARD_RADII.TRIPLE_END then 3
      else if BOARD_RADII.DOUBLE_START ≤ radius ∧ radius ≤ BOARD_RADII.DOUBLE_END then 2
      else 1
    ⟨number, multiplier, multTag multiplier ++ toString number, number * multiplier⟩

/-- Round trip of the two coordinate conversions: for an angle in `[0, 360)`
and a positive radius, converting to cartesian and back returns the input
exactly. -/
theorem cartesianToPolar_polarToCartesian (a r : ℝ) (ha0 : 0 ≤ a) (ha : a < 360)
    (hr : 0 < r) :
    cartesianToPolar (polarToCartesian a r).1 (polarToCartesian a r).2 = (a, r) := by
  unfold polarToCartesian cartesianToPolar
  dsimp only
  set θ := (a - 90) * Real.pi / 180 with hθ
  have hpi := Real.pi_pos
  have hpne : Real.pi ≠ 0 := hpi.ne'
  have hrad : Real.sqrt (r * Real.cos θ * (r * Real.cos θ) +
      r * Real.sin θ * (r * Real.sin θ)) = r := by
    have hsum : r * Real.cos θ * (r * Real.cos θ) +
        r * Real.sin θ * (r * Real.sin θ) = r ^ 2 := by
      have hcs := Real.sin_sq_add_cos_sq θ
      nlinarith [hcs]
    rw [hsum, Real.sqrt_sq hr.le]
  by_cases hcase : a ≤ 270
  · have hmem : θ ∈ Set.Ioc (-Real.pi) Real.pi := by
      constructor
      · rw [hθ]
        nlinarith [mul_nonneg ha0 hpi.le]
      · rw [hθ]
        nlinarith [mul_nonneg (by linarith : (0:ℝ) ≤ 270 - a) hpi.le]
    have harg : atan2 (r * Real.sin θ) (r * Real.cos θ) = θ := by
      unfold atan2
      have hzeq : (⟨r * Real.cos θ, r * Real.sin θ⟩ : ℂ) =
          (r : ℂ) * ((Real.cos θ : ℂ) + (Real.sin θ : ℂ) * Complex.I) := by
        apply Complex.ext <;>
          simp [Complex.mul_re, Complex.mul_im, Complex.cos_ofReal_re,
            Complex.sin_ofReal_re]
      rw [hzeq, Complex.arg_real_mul _ hr, Complex.ofReal_cos, Complex.ofReal_sin]
      exact Complex.arg_cos_add_sin_mul_I hmem
    rw [harg, hrad]
    have hang : θ * 180 / Real.pi + 90 = a := by
      rw [hθ]
      field_simp
    rw [hang, if_neg (not_lt.mpr ha0)]
  · push_neg at hcase
    have hmem : θ - 2 * Real.pi ∈ Set.Ioc (-Real.pi) Real.pi := by
      constructor
      · rw [hθ]
        nlinarith [mul_pos (by linarith : (0:ℝ) < a - 270) hpi]
      · rw [hθ]
        nlinarith [mul_pos (by linarith : (0:ℝ) < 630 - a) hpi]
    have harg : atan2 (r * Real.sin θ) (r * Real.cos θ) = θ - 2 * Real.pi := by
      unfold atan2
      have hzeq : (⟨r * Real.cos θ, r * Real.sin θ⟩ : ℂ) =
          (r : ℂ) * ((Real.cos (θ - 2 * Real.pi) : ℂ) +
            (Real.sin (θ - 2 * Real.pi) : ℂ) * Complex.I) := by
        apply Complex.ext <;>
          simp [Complex.mul_re, Complex.mul_im, Complex.cos_ofReal_re,
            Complex.sin_ofReal_re, Real.cos_sub_two_pi, Real.sin_sub_two_pi]
      rw [hzeq, Complex.arg_real_mul _ hr, Complex.ofReal_cos, Complex.ofReal_sin]
      exact Complex.arg_cos_add_sin_mul_I hmem
    rw [harg, hrad]
    have hang : (θ - 2 * Real.pi) * 180 / Real.pi + 90 = a - 360 := by
      rw [hθ]
      field_simp
      ring
    rw [hang, if_pos (by linarith)]
    rw [Prod.mk.injEq]
    exact ⟨by ring, rfl⟩

/-- Classification of the cartesian point at sector-center angle `18·idx` and
a radius strictly between the outer bull and the board edge. -/
theorem getSegmentAtPoint_center (idx : Nat) (hidx : idx < 20) (r : ℝ)
    (h1 : BOARD_RADII.SINGLE_BULL < r) (h2 : r ≤ BOARD_RADII.DOUBLE_END) :
    (getSegmentAtPoint (polarToCartesian (18 * (idx : ℝ)) r).1
        (polarToCartesian (18 * (idx : ℝ)) r).2).number = BOARD_NUMBERS.getD idx 0 ∧
    (getSegmentAtPoint (polarToCartesian (18 * (idx : ℝ)) r).1
        (polarToCartesian (18 * (idx : ℝ)) r).2).multiplier =
      (if BOARD_RADII.TRIPLE_START ≤ r ∧ r ≤ BOARD_RADII.TRIPLE_END then 3
        else if BOARD_RADII.DOUBLE_START ≤ r ∧ r ≤ BOARD_RADII.DOUBLE_END then 2
        else 1 : Nat) := by
  have hidxR : (idx : ℝ) ≤ 19 := by
    have h19 : idx ≤ 19 := by omega
    exact_mod_cast h19
  have hidxR0 : (0 : ℝ) ≤ (idx : ℝ) := Nat.cast_nonneg idx
  have ha0 : (0 : ℝ) ≤ 18 * (idx : ℝ) := by positivity
  have ha360 : 18 * (idx : ℝ) < 360 := by nlinarith
  have hr0 : (0 : ℝ) < r := lt_trans (by norm_num [BOARD_RADII]) h1
  have hrt := cartesianToPolar_polarToCartesian (18 * (idx : ℝ)) r ha0 ha360 hr0
  unfold getSegmentAtPoint
  simp only [BOARD_RADII, SEGMENT_ANGLE] at h1 h2 ⊢
  rw [hrt]
  dsimp only
  rw [if_neg (not_lt.mpr h2), if_neg (not_le.mpr (by linarith)), if_neg (not_le.mpr h1)]
  have hadj : jsMod (18 * (idx : ℝ) + 18 / 2) 360 = 18 * (idx : ℝ) + 9 := by
    unfold jsMod
    have hfl0 : ⌊(18 * (idx : ℝ) + 18 / 2) / 360⌋ = 0 := by
      rw [Int.floor_eq_zero_iff, Set.mem_Ico]
      constructor
      · positivity
      · rw [div_lt_one (by norm_num)]
        nlinarith
    rw [hfl0]
    norm_num
  have hflidx : ⌊(18 * (idx : ℝ) + 9) / 18⌋ = (idx : ℤ) := by
    have he : (18 * (idx : ℝ) + 9) / 18 = (idx : ℝ) + 1 / 2 := by ring
    rw [he, Int.floor_eq_iff]
    constructor
    · push_cast
      linarith
    · push_cast
      linarith
  rw [hadj, hflidx, Int.toNat_natCast, Nat.mod_eq_of_lt hidx]
  exact ⟨rfl, rfl⟩

/-- C9: for every number `n` in 1..20 and multiplier `m` in {1,2,3},
classifying the exact geometric center of the `(n, m)` zone — the sector
center angle of `n` at the midpoint radius of the single, triple or double
band — returns the segment `(n, m)`. -/
theorem c9_zone_centers (n m : Nat) (hn : n ∈ List.range' 1 20)
    (hm : m ∈ [1, 2, 3]) :
    (getSegmentAtPoint (polarToCartesian (getSegmentAngle n) (getTargetRadius m false)).1
        (polarToCartesian (getSegmentAngle n) (getTargetRadius m false)).2).number = n ∧
    (getSegmentAtPoint (polarToCartesian (getSegmentAngle n) (getTargetRadius m false)).1
        (polarToCartesian (getSegmentAngle n) (getTargetRadius m false)).2).multiplier
      = m := by
  have hr1 : BOARD_RADII.SINGLE_BULL < getTargetRadius m false := by
    fin_cases hm <;> norm_num [getTargetRadius, BOARD_RADII]
  have hr2 : getTargetRadius m false ≤ BOARD_RADII.DOUBLE_END := by
    fin_cases hm <;> norm_num [getTargetRadius, BOARD_RADII]
  have hrm : (if BOARD_RADII.TRIPLE_START ≤ getTargetRadius m false ∧
        getTargetRadius m false ≤ BOARD_RADII.TRIPLE_END then 3
      else if BOARD_RADII.DOUBLE_START ≤ getTargetRadius m false ∧
        getTargetRadius m false ≤ BOARD_RADII.DOUBLE_END then 2
      else 1 : Nat) = m := by
    fin_cases hm <;> norm_num [getTargetRadius, BOARD_RADII]
  have hn' : n ∈ ([1, 2, 3, 4, 5, 6, 7, 8, 9, 10, 11, 12, 13, 14, 15, 16, 17,
      18, 19, 20] : List Nat) := hn
  obtain ⟨idx, hlt, hang, hget⟩ :
      ∃ idx : Nat, idx < 20 ∧ getSegmentAngle n = 18 * (idx : ℝ) ∧
        BOARD_NUMBERS.getD idx 0 = n := by
    fin_cases hn'
    · exact ⟨1, by decide, by norm_num [getSegmentAngle, indexOfFrom,
        BOARD_NUMBERS, SEGMENT_ANGLE], by decide⟩
    · exact ⟨8, by decide, by norm_num [getSegmentAngle, indexOfFrom,
        BOARD_NUMBERS, SEGMENT_ANGLE], by decide⟩
    · exact ⟨10, by decide, by norm_num [getSegmentAngle, indexOfFrom,
        BOARD_NUMBERS, SEGMENT_ANGLE], by decide⟩
    · exact ⟨3, by decide, by norm_num [getSegmentAngle, indexOfFrom,
        BOARD_NUMBERS, SEGMENT_ANGLE], by decide⟩
    · exact ⟨19, by decide, by norm_num [getSegmentAngle, indexOfFrom,
        BOARD_NUMBERS, SEGMENT_ANGLE], by decide⟩
    · exact ⟨5, by decide, by norm_num [getSegmentAngle, indexOfFrom,
        BOARD_NUMBERS, SEGMENT_ANGLE], by decide⟩
    · exact ⟨12, by decide, by norm_num [getSegmentAngle, indexOfFrom,
        BOARD_NUMBERS, SEGMENT_ANGLE], by decide⟩
    · exact ⟨14, by decide, by norm_num [getSegmentAngle, indexOfFrom,
        BOARD_NUMBERS, SEGMENT_ANGLE], by decide⟩
    · exact ⟨17, by decide, by norm_num [getSegmentAngle, indexOfFrom,
        BOARD_NUMBERS, SEGMENT_ANGLE], by decide⟩
    · exact ⟨6, by decide, by norm_num [getSegmentAngle, indexOfFrom,
        BOARD_NUMBERS, SEGMENT_ANGLE], by decide⟩
    · exact ⟨15, by decide, by norm_num [getSegmentAngle, indexOfFrom,
        BOARD_NUMBERS, SEGMENT_ANGLE], by decide⟩
    · exact ⟨18, by decide, by norm_num [getSegmentAngle, indexOfFrom,
        BOARD_NUMBERS, SEGMENT_ANGLE], by decide⟩
    · exact ⟨4, by decide, by norm_num [getSegmentAngle, indexOfFrom,
        BOARD_NUMBERS, SEGMENT_ANGLE], by decide⟩
    · exact ⟨16, by decide, by norm_num [getSegmentAngle, indexOfFrom,
        BOARD_NUMBERS, SEGMENT_ANGLE], by decide⟩
    · exact ⟨7, by decide, by norm_num [getSegmentAngle, indexOfFrom,
        BOARD_NUMBERS, SEGMENT_ANGLE], by decide⟩
    · exact ⟨13, by decide, by norm_num [getSegmentAngle, indexOfFrom,
        BOARD_NUMBERS, SEGMENT_ANGLE], by decide⟩
    · exact ⟨9, by decide, by norm_num [getSegmentAngle, indexOfFrom,
        BOARD_NUMBERS, SEGMENT_ANGLE], by decide⟩
    · exact ⟨2, by decide, by norm_num [getSegmentAngle, indexOfFrom,
        BOARD_NUMBERS, SEGMENT_ANGLE], by decide⟩
    · exact ⟨11, by decide, by norm_num [getSegmentAngle, indexOfFrom,
        BOARD_NUMBERS, SEGMENT_ANGLE], by decide⟩
    · exact ⟨0, by decide, by norm_num [getSegmentAngle, indexOfFrom,
        BOARD_NUMBERS, SEGMENT_ANGLE], by decide⟩
  rw [hang]
  have h := getSegmentAtPoint_center idx hlt (getTargetRadius m false) hr1 hr2
  rw [h.1, h.2, hget, hrm]
  exact ⟨rfl, rfl⟩

/-- Witness for C9: the center of the triple-20 band classifies as T20. -/
theorem c9_zone_centers_witness :
    (getSegmentAtPoint
        (polarToCartesian (getSegmentAngle 20) (getTargetRadius 3 false)).1
        (polarToCartesian (getSegmentAngle 20) (getTargetRadius 3 false)).2).number
      = 20 ∧
    (getSegmentAtPoint
        (polarToCartesian (getSegmentAngle 20) (getTargetRadius 3 false)).1
        (polarToCartesian (getSegmentAngle 20) (getTargetRadius 3 false)).2).multiplier
      = 3 :=
  c9_zone_centers 20 3 (by decide) (by decide)

end Darty
